import Mathlib

/-!
Verification of the chess-signaling-server room/session core.

The repository holds two variants of the same WebSocket signaling server:

* `src/server.js` (variant A): per-room rescheduled expiry timers
  (`updateRoomTimeout`, `clearRoomTimeout`, `closeRoom`), a guest joining a
  nonexistent room is rejected with "Room not found", and `move` messages to
  an unavailable peer are dropped silently.
* `src/unnamed/part_000` (variant B): `lastActivity`-based periodic sweep,
  any join to a nonexistent room creates the room, and every message to an
  unavailable peer is answered with an error event.

Variant A is embedded as a small-step event semantics over an explicit server
state.  Room objects live in a heap indexed by `Nat` references so that the
per-connection `message`/`close` callbacks mutate the very room object they
captured at join time, exactly as the JavaScript closures do; the registry
`rooms` maps a room id to such a reference.  A connection's transport closing
and the dispatch of its `close` event are two separate events
(`Event.transportClose`, `Event.dispatchClose`), matching the `ws` library in
which `readyState` leaves `OPEN` before the registered close listener runs.

Variant B's handlers are embedded in the `VariantB` namespace; its `message`
and `close` handlers are given at the granularity of the captured room object.

JSON payloads are opaque: an inbound frame is its raw byte string together
with the outcome of `JSON.parse` (failure, or success with the optional
`type` tag), and outbound frames are modelled by the `OutMsg` inductive.
-/

/-! ## Association lists (the JavaScript `Map`s) -/

def getA [DecidableEq κ] : List (κ × α) → κ → Option α
  | [], _ => none
  | (k', v) :: t, k => if k = k' then some v else getA t k

def setA [DecidableEq κ] : List (κ × α) → κ → α → List (κ × α)
  | [], k, v => [(k, v)]
  | (k', v') :: t, k, v => if k = k' then (k, v) :: t else (k', v') :: setA t k v

def delA [DecidableEq κ] (l : List (κ × α)) (k : κ) : List (κ × α) :=
  l.filter (fun p => decide (¬ p.1 = k))

def updA [DecidableEq κ] (l : List (κ × α)) (k : κ) (f : α → α) : List (κ × α) :=
  l.map (fun p => if p.1 = k then (p.1, f p.2) else p)

def countKey [DecidableEq κ] (l : List (κ × α)) (k : κ) : Nat :=
  (l.filter (fun p => decide (p.1 = k))).length

/-! ## Shared data model -/

/-- Models `ws.readyState`, restricted to the values the server distinguishes. -/
inductive ReadyState where
  | OPEN
  | CLOSING
  | CLOSED
deriving DecidableEq, Repr

def ReadyState.isOpen : ReadyState → Bool
  | .OPEN => true
  | _ => false

/-- A connection is identified by a numeric handle. -/
abbrev ConnId := Nat

/-- A seat `{ ws, playerId }` as stored in `room.host` / `room.guest`. -/
structure Seat where
  ws : ConnId
  playerId : String
deriving DecidableEq, Repr

/-- Outbound frames the server ever writes to a socket. -/
inductive OutMsg where
  | errorMsg (message : String)
  | playerJoined (playerId : String)
  | connected (roomId playerId : String) (isHost : Bool)
  | opponentDisconnected
  | hostDisconnected
  | guestDisconnected
  | relay (raw : String)
deriving DecidableEq, Repr

/-- Outcome of `JSON.parse` on an inbound frame: a throw, or success with the
value of `data.type` (`none` when the parsed object has no `type` field). -/
inductive ParseOutcome where
  | fail
  | ok (typeTag : Option String)
deriving DecidableEq, Repr

/-- The variables captured by the `message`/`close` listeners that
`wss.on('connection')` registers: the join-time room id, player id, role
flag, the reference to the room object, and the `connections` key. -/
structure HandlerCtx where
  roomId : String
  playerId : String
  isHost : Bool
  roomRef : Nat
  connectionId : String
deriving DecidableEq, Repr

/-- Per-connection transport state, what the server wrote to it, the close
code/reason passed to `ws.close` (if any), whether listeners were registered,
and whether its close event has already been dispatched. -/
structure ConnInfo where
  state : ReadyState
  sent : List OutMsg
  closeInfo : Option (Nat × String)
  handler : Option HandlerCtx
  closeDispatched : Bool
deriving DecidableEq, Repr

/-- A room object of variant A: `{ host, guest, createdAt }`. -/
structure Room where
  host : Option Seat
  guest : Option Seat
  createdAt : Nat
deriving DecidableEq, Repr

/-- The whole mutable state of variant A: the room-object heap, the `rooms`
registry (room id to heap reference), the `connections` map, the
`roomTimeouts` map (room id to the armed single-shot duration), the
connection table, the next fresh heap reference, and a logical clock. -/
structure ServerState where
  heap : List (Nat × Room)
  rooms : List (String × Nat)
  connections : List (String × ConnId)
  roomTimeouts : List (String × Nat)
  conns : List (ConnId × ConnInfo)
  nextRef : Nat
  time : Nat
deriving DecidableEq, Repr

/-- JavaScript falsiness of `url.searchParams.get(...)`: absent or empty. -/
def strFalsy (o : Option String) : Bool :=
  (o.getD "").isEmpty

/-- Models `ws.send(...)`: append the frame to the connection's outbox. -/
def sendTo (s : ServerState) (c : ConnId) (m : OutMsg) : ServerState :=
  { s with conns := updA s.conns c (fun ci => { ci with sent := ci.sent ++ [m] }) }

/-- Models `ws.close(code, reason)`: only an `OPEN` socket transitions (to
`CLOSING`); closing an already closing/closed socket is a no-op. -/
def closeWs (s : ServerState) (c : ConnId) (code : Nat) (reason : String) : ServerState :=
  { s with conns := updA s.conns c (fun ci =>
      if ci.state = ReadyState.OPEN then
        { ci with state := ReadyState.CLOSING, closeInfo := some (code, reason) }
      else ci) }

/-- Models `x.ws.readyState === WebSocket.OPEN` for a connection handle. -/
def connIsOpen (s : ServerState) (c : ConnId) : Bool :=
  match getA s.conns c with
  | some ci => ci.state.isOpen
  | none => false

/-- Models `seat && seat.ws.readyState === WebSocket.OPEN`. -/
def seatOnline (s : ServerState) (seat : Option Seat) : Bool :=
  match seat with
  | some st => connIsOpen s st.ws
  | none => false

/-- The occupant count exactly as `updateRoomTimeout` computes it. -/
def openCount (s : ServerState) (room : Room) : Nat :=
  (if seatOnline s room.host then 1 else 0) + (if seatOnline s room.guest then 1 else 0)

/-- Models `if (seat && seat.ws.readyState === OPEN) seat.ws.send(m)`. -/
def notifyIfOpen (s : ServerState) (seat : Option Seat) (m : OutMsg) : ServerState :=
  match seat with
  | some st => if connIsOpen s st.ws then sendTo s st.ws m else s
  | none => s

/-! ## Variant A: room-timeout logic (`src/server.js` lines 21-81) -/

def TIMEOUTS_EMPTY : Nat := 5 * 60 * 1000

def TIMEOUTS_ONE_PLAYER : Nat := 2 * 60 * 60 * 1000

def TIMEOUTS_TWO_PLAYERS : Nat := 5 * 60 * 60 * 1000

/-- The three-tier duration table of `updateRoomTimeout`, keyed on `playerCount`. -/
def timeoutForCount (playerCount : Nat) : Nat :=
  if playerCount = 0 then TIMEOUTS_EMPTY
  else if playerCount = 1 then TIMEOUTS_ONE_PLAYER
  else TIMEOUTS_TWO_PLAYERS

/-- Models `clearRoomTimeout(roomId)`: drop any pending timer for the room. -/
def clearRoomTimeout (s : ServerState) (roomId : String) : ServerState :=
  { s with roomTimeouts := delA s.roomTimeouts roomId }

/-- The registry room for an id (registry lookup followed by the heap). -/
def roomOfId (s : ServerState) (roomId : String) : Option Room :=
  (getA s.rooms roomId).bind (getA s.heap)

/-- Models `updateRoomTimeout(roomId)` (`src/server.js` lines 50-81): clear the
pending timer, re-read the room, count open seats and arm one new timer. -/
def updateRoomTimeout (s : ServerState) (roomId : String) : ServerState :=
  let s := clearRoomTimeout s roomId
  match roomOfId s roomId with
  | none => s
  | some room =>
    { s with roomTimeouts := setA s.roomTimeouts roomId (timeoutForCount (openCount s room)) }

/-- Models `if (seat && seat.ws.readyState === OPEN) seat.ws.close(1000, 'Room timed
out')`, the per-seat block of `closeRoom`. -/
def closeSeatIfOpen (s : ServerState) (seat : Option Seat) : ServerState :=
  match seat with
  | some st => if connIsOpen s st.ws then closeWs s st.ws 1000 "Room timed out" else s
  | none => s

/-- Models `closeRoom(roomId)` (`src/server.js` lines 34-48), the timer fire handler:
no-op when the room is gone; otherwise close any still-open seat connections
with code 1000 and remove the room and its timer handle. -/
def closeRoom (s : ServerState) (roomId : String) : ServerState :=
  match roomOfId s roomId with
  | none => s
  | some room =>
    let s := closeSeatIfOpen s room.host
    let s := closeSeatIfOpen s room.guest
    { s with rooms := delA s.rooms roomId, roomTimeouts := delA s.roomTimeouts roomId }

/-! ## Variant A: connection handling (`src/server.js` lines 112-229) -/

/-- Models `rooms.set(roomId, { host: null, guest: null, createdAt: Date.now() })`
with a fresh heap reference for the new room object. -/
def createRoom (s : ServerState) (roomId : String) : ServerState :=
  { s with heap := setA s.heap s.nextRef ⟨none, none, s.time⟩,
           rooms := setA s.rooms roomId s.nextRef,
           nextRef := s.nextRef + 1 }

/-- Tail of a successful join: `updateRoomTimeout(roomId)`, register the
`message`/`close` listeners, then send the `connected` acknowledgement. -/
def finishJoin (s : ServerState) (c : ConnId) (roomId playerId : String)
    (isHost : Bool) (ref : Nat) (connectionId : String) : ServerState :=
  let s := updateRoomTimeout s roomId
  let s := { s with conns := updA s.conns c (fun ci =>
      { ci with handler := some ⟨roomId, playerId, isHost, ref, connectionId⟩ }) }
  sendTo s c (OutMsg.connected roomId playerId isHost)

/-- The part of `wss.on('connection')` from `const room = rooms.get(roomId)`
on: record the connection under `roomId-playerId`, validate the seat, occupy
it (notifying the host when a guest joins), or reject. -/
def afterRoomInit (s : ServerState) (c : ConnId) (roomId playerId : String)
    (isHost : Bool) : ServerState :=
  match getA s.rooms roomId with
  | none => s
  | some ref =>
    match getA s.heap ref with
    | none => s
    | some room =>
      let connectionId := roomId ++ "-" ++ playerId
      let s := { s with connections := setA s.connections connectionId c }
      if isHost then
        if seatOnline s room.host then
          closeWs (sendTo s c (OutMsg.errorMsg "Room already has a host")) c 1008
            "Room already has a host"
        else
          let s := { s with heap := setA s.heap ref { room with host := some ⟨c, playerId⟩ } }
          finishJoin s c roomId playerId isHost ref connectionId
      else
        if seatOnline s room.guest then
          closeWs (sendTo s c (OutMsg.errorMsg "Room is full")) c 1008
            "Room already has a guest"
        else
          let s := { s with heap := setA s.heap ref { room with guest := some ⟨c, playerId⟩ } }
          let s := notifyIfOpen s room.host (OutMsg.playerJoined playerId)
          finishJoin s c roomId playerId isHost ref connectionId

/-- Models `wss.on('connection')` (variant A): parameter check, room initialization
(a host may create the room, a guest is rejected with "Room not found"),
then seat assignment. -/
def handleConnect (s : ServerState) (c : ConnId) (ridO pidO : Option String)
    (isHost : Bool) : ServerState :=
  let s := { s with conns := setA s.conns c ⟨ReadyState.OPEN, [], none, none, false⟩ }
  if strFalsy ridO || strFalsy pidO then
    closeWs s c 1008 "Missing room or player ID"
  else
    let roomId := ridO.getD ""
    let playerId := pidO.getD ""
    if (getA s.rooms roomId).isSome then
      afterRoomInit s c roomId playerId isHost
    else if isHost then
      afterRoomInit (createRoom s roomId) c roomId playerId isHost
    else
      closeWs (sendTo s c (OutMsg.errorMsg "Room not found")) c 1008 "Room not found"

/-- The shared else-branch of the relay: `if (data.type !== 'move')` answer
the sender with the peer-unavailable error, else drop silently. -/
def noTargetReply (s : ServerState) (c : ConnId) (typeTag : Option String) : ServerState :=
  if typeTag = some "move" then s
  else sendTo s c (OutMsg.errorMsg "Other player is not connected")

/-- Models `ws.on('message')` (variant A): on parse failure do nothing; otherwise
relay the raw frame to the opposite seat of the captured room when it is
occupied and open, else reply per `noTargetReply`. -/
def handleMessage (s : ServerState) (ctx : HandlerCtx) (c : ConnId) (raw : String)
    (parse : ParseOutcome) : ServerState :=
  match parse with
  | ParseOutcome.fail => s
  | ParseOutcome.ok typeTag =>
    match getA s.heap ctx.roomRef with
    | none => s
    | some room =>
      match (if ctx.isHost then room.guest else room.host) with
      | some t =>
        if connIsOpen s t.ws then sendTo s t.ws (OutMsg.relay raw)
        else noTargetReply s c typeTag
      | none => noTargetReply s c typeTag

/-- Models `ws.on('close')` (variant A): delete the `connections` entry, clear this
role's seat in the captured room object, notify the opposite seat if it is
occupied and open, then `updateRoomTimeout(roomId)`. -/
def handleClose (s : ServerState) (ctx : HandlerCtx) : ServerState :=
  let s := { s with connections := delA s.connections ctx.connectionId }
  let s :=
    match getA s.heap ctx.roomRef with
    | none => s
    | some room =>
      if ctx.isHost then
        let s := { s with heap := setA s.heap ctx.roomRef { room with host := none } }
        notifyIfOpen s room.guest OutMsg.opponentDisconnected
      else
        let s := { s with heap := setA s.heap ctx.roomRef { room with guest := none } }
        notifyIfOpen s room.host OutMsg.opponentDisconnected
  updateRoomTimeout s ctx.roomId

/-! ## Variant A: event loop -/

/-- The events the single-threaded server processes in arrival order.
`transportClose` is the socket leaving `OPEN`/`CLOSING` (no listener runs);
`dispatchClose` is the later delivery of the `close` event to the listener
registered at join time (if any). -/
inductive Event where
  | connect (c : ConnId) (roomId playerId : Option String) (isHost : Bool)
  | message (c : ConnId) (raw : String) (parse : ParseOutcome)
  | transportClose (c : ConnId)
  | dispatchClose (c : ConnId)
  | timerFire (roomId : String)
deriving DecidableEq, Repr

def stepA (s : ServerState) (e : Event) : ServerState :=
  let s' :=
    match e with
    | .connect c rid pid isHost =>
      if (getA s.conns c).isNone then handleConnect s c rid pid isHost else s
    | .message c raw parse =>
      match getA s.conns c with
      | some ci =>
        if ci.state = ReadyState.OPEN then
          match ci.handler with
          | some ctx => handleMessage s ctx c raw parse
          | none => s
        else s
      | none => s
    | .transportClose c =>
      match getA s.conns c with
      | some ci =>
        if ci.state = ReadyState.CLOSED then s
        else { s with conns := updA s.conns c (fun x => { x with state := ReadyState.CLOSED }) }
      | none => s
    | .dispatchClose c =>
      match getA s.conns c with
      | some ci =>
        if ci.state = ReadyState.CLOSED ∧ ci.closeDispatched = false then
          let s2 := { s with conns := updA s.conns c (fun x => { x with closeDispatched := true }) }
          match ci.handler with
          | some ctx => handleClose s2 ctx
          | none => s2
        else s
      | none => s
    | .timerFire rid =>
      if (getA s.roomTimeouts rid).isSome then closeRoom s rid else s
  { s' with time := s'.time + 1 }

def initState : ServerState :=
  { heap := [], rooms := [], connections := [], roomTimeouts := [], conns := [],
    nextRef := 0, time := 0 }

def runA (s : ServerState) (es : List Event) : ServerState :=
  es.foldl stepA s

def ReachableA (s : ServerState) : Prop :=
  ∃ es, runA initState es = s

/-! ## Variant B: `src/unnamed/part_000` -/

namespace VariantB

/-- A room object of variant B: `{ host, guest, createdAt, lastActivity }`. -/
structure BRoom where
  host : Option Seat
  guest : Option Seat
  createdAt : Nat
  lastActivity : Nat
deriving DecidableEq, Repr

/-- Per-connection state for variant B (`hasHandlers` records whether the
`message`/`close` listeners were registered for this socket). -/
structure BConn where
  state : ReadyState
  sent : List OutMsg
  closeInfo : Option (Nat × String)
  hasHandlers : Bool
deriving DecidableEq, Repr

/-- Variant B global state: the `rooms` registry, the `connections` map, the
connection table, and the room ids for which the close handler scheduled the
8-minute empty-room deletion (`setTimeout`). -/
structure BState where
  rooms : List (String × BRoom)
  connections : List (String × ConnId)
  conns : List (ConnId × BConn)
  pendingCleanups : List String
deriving DecidableEq, Repr

def initB : BState :=
  { rooms := [], connections := [], conns := [], pendingCleanups := [] }

def sendToB (s : BState) (c : ConnId) (m : OutMsg) : BState :=
  { s with conns := updA s.conns c (fun ci => { ci with sent := ci.sent ++ [m] }) }

def closeWsB (s : BState) (c : ConnId) (code : Nat) (reason : String) : BState :=
  { s with conns := updA s.conns c (fun ci =>
      if ci.state = ReadyState.OPEN then
        { ci with state := ReadyState.CLOSING, closeInfo := some (code, reason) }
      else ci) }

def connIsOpenB (s : BState) (c : ConnId) : Bool :=
  match getA s.conns c with
  | some ci => ci.state.isOpen
  | none => false

def seatOnlineB (s : BState) (seat : Option Seat) : Bool :=
  match seat with
  | some st => connIsOpenB s st.ws
  | none => false

def notifyIfOpenB (s : BState) (seat : Option Seat) (m : OutMsg) : BState :=
  match seat with
  | some st => if connIsOpenB s st.ws then sendToB s st.ws m else s
  | none => s

/-- Tail of a successful variant-B join: register the listeners, then send
the `connected` acknowledgement. -/
def finishJoinB (s : BState) (c : ConnId) (roomId playerId : String) (isHost : Bool) : BState :=
  let s := { s with conns := updA s.conns c (fun ci => { ci with hasHandlers := true }) }
  sendToB s c (OutMsg.connected roomId playerId isHost)

/-- Models `wss.on('connection')` (variant B, `part_000` lines 52-95): parameter
check; the room is created when absent regardless of role; `lastActivity` is
refreshed; the connection is recorded; then seat assignment, with rejection
(`ws.close(1008, ...)`, no error frame) when the target seat is occupied by
an open socket. -/
def handleConnect (s : BState) (c : ConnId) (ridO pidO : Option String)
    (isHost : Bool) (now : Nat) : BState :=
  let s := { s with conns := setA s.conns c ⟨ReadyState.OPEN, [], none, false⟩ }
  if strFalsy ridO || strFalsy pidO then
    closeWsB s c 1008 "Missing room or player ID"
  else
    let roomId := ridO.getD ""
    let playerId := pidO.getD ""
    let s := if (getA s.rooms roomId).isSome then s
             else { s with rooms := setA s.rooms roomId ⟨none, none, now, now⟩ }
    match getA s.rooms roomId with
    | none => s
    | some room0 =>
      let room := { room0 with lastActivity := now }
      let s := { s with rooms := setA s.rooms roomId room }
      let connectionId := roomId ++ "-" ++ playerId
      let s := { s with connections := setA s.connections connectionId c }
      if isHost then
        if seatOnlineB s room.host then
          closeWsB s c 1008 "Room already has a host"
        else
          let s := { s with rooms := setA s.rooms roomId { room with host := some ⟨c, playerId⟩ } }
          finishJoinB s c roomId playerId isHost
      else
        if seatOnlineB s room.guest then
          closeWsB s c 1008 "Room already has a guest"
        else
          let s := { s with rooms := setA s.rooms roomId { room with guest := some ⟨c, playerId⟩ } }
          let s := notifyIfOpenB s room.host (OutMsg.playerJoined playerId)
          finishJoinB s c roomId playerId isHost

/-- Models `ws.on('message')` (variant B, `part_000` lines 97-111), acting on the
captured room object: `lastActivity` is refreshed first (inside the `try`,
before `JSON.parse`); on successful parse the raw frame is relayed to the
opposite seat when open, otherwise the sender always gets the
peer-unavailable error (no silent category in this variant). -/
def handleMessage (s : BState) (room : BRoom) (c : ConnId) (isHost : Bool)
    (raw : String) (parse : ParseOutcome) (now : Nat) : BState × BRoom :=
  let room := { room with lastActivity := now }
  match parse with
  | ParseOutcome.fail => (s, room)
  | ParseOutcome.ok _ =>
    match (if isHost then room.guest else room.host) with
    | some t =>
      if connIsOpenB s t.ws then (sendToB s t.ws (OutMsg.relay raw), room)
      else (sendToB s c (OutMsg.errorMsg "Other player is not connected"), room)
    | none => (sendToB s c (OutMsg.errorMsg "Other player is not connected"), room)

/-- Models `if (!room.host && !room.guest) setTimeout(...)` (`part_000` lines
131-139): record that the 8-minute empty-room deletion was scheduled. -/
def scheduleCleanupIfEmpty (s : BState) (room : BRoom) (roomId : String) : BState :=
  if room.host.isNone && room.guest.isNone then
    { s with pendingCleanups := s.pendingCleanups ++ [roomId] }
  else s

/-- Models `ws.on('close')` (variant B, `part_000` lines 113-140), acting on the
captured room object: delete the `connections` entry, clear this role's
seat, notify the opposite seat (`host-disconnected`/`guest-disconnected`)
when open, refresh `lastActivity`, and when the room is now empty schedule
the 8-minute empty-room deletion. -/
def handleClose (s : BState) (room : BRoom) (connectionId roomId : String)
    (isHost : Bool) (now : Nat) : BState × BRoom :=
  let s := { s with connections := delA s.connections connectionId }
  let p :=
    if isHost then
      let room := { room with host := none }
      (notifyIfOpenB s room.guest OutMsg.hostDisconnected, room)
    else
      let room := { room with guest := none }
      (notifyIfOpenB s room.host OutMsg.guestDisconnected, room)
  let room := { p.2 with lastActivity := now }
  let s := scheduleCleanupIfEmpty p.1 room roomId
  (s, room)

end VariantB

/-! ## Concrete states and claim statements used by the theorems below -/

/-- The state after a host `H` joined the fresh room `R`. -/
def sHostJoined : ServerState :=
  runA initState [Event.connect 0 (some "R") (some "H") true]

/-- The state after host `H` and guest `G` both joined room `R`. -/
def sBothJoined : ServerState :=
  runA initState
    [Event.connect 0 (some "R") (some "H") true,
     Event.connect 1 (some "R") (some "G") false]

/-- The variant-B state after a host `H` joined the fresh room `R` at time 3. -/
def sBHostJoined : VariantB.BState :=
  VariantB.handleConnect VariantB.initB 0 (some "R") (some "H") true 3

/-- The state in which host `H` (connection 0) transport-closed without its
close event being dispatched, and a newer host `H2` (connection 2) has taken
the host seat of the same room object. -/
def sStaleTakeover : ServerState :=
  runA initState
    [Event.connect 0 (some "R") (some "H") true,
     Event.transportClose 0,
     Event.connect 2 (some "R") (some "H2") true]

/-- C10 as stated: every join request that passes the missing-parameter
check inserts its connection into the `connections` map under
`roomId-playerId` (before seat validation). -/
def ClaimC10Stated : Prop :=
  ∀ (s : ServerState) (c : ConnId) (rid pid : String) (isHost : Bool),
    getA s.conns c = none →
    strFalsy (some rid) = false →
    strFalsy (some pid) = false →
    getA (stepA s (Event.connect c (some rid) (some pid) isHost)).connections
      (rid ++ "-" ++ pid) = some c

/-- The state after the guest of the concrete two-player room transport-
closed and its close event was dispatched. -/
def sGuestLeft : ServerState :=
  stepA (stepA sBothJoined (Event.transportClose 1)) (Event.dispatchClose 1)

/-- C2 as stated, asserted of both cited handlers: a host join to an absent
room succeeds and creates the room, and a guest join to an absent room is
rejected and creates no room. -/
def ClaimC2Stated : Prop :=
  (∀ (s : ServerState) (c : ConnId) (rid pid : String),
    getA s.conns c = none →
    strFalsy (some rid) = false →
    strFalsy (some pid) = false →
    getA s.rooms rid = none →
    (getA (stepA s (Event.connect c (some rid) (some pid) true)).rooms rid).isSome = true ∧
    getA (stepA s (Event.connect c (some rid) (some pid) false)).rooms rid = none) ∧
  (∀ (s : VariantB.BState) (c : ConnId) (rid pid : String) (now : Nat),
    getA s.conns c = none →
    strFalsy (some rid) = false →
    strFalsy (some pid) = false →
    getA s.rooms rid = none →
    getA (VariantB.handleConnect s c (some rid) (some pid) false now).rooms rid = none)

/-- C1 as stated: at every reachable state, each seat of each registered
room holds at most one connection, and is occupied only while that
connection is open. -/
def ClaimC1Stated : Prop :=
  ∀ s : ServerState, ReachableA s → ∀ (rid : String) (room : Room),
    roomOfId s rid = some room →
    (∀ st : Seat, room.host = some st → connIsOpen s st.ws = true) ∧
    (∀ st : Seat, room.guest = some st → connIsOpen s st.ws = true) ∧
    (∀ st st' : Seat, room.host = some st → room.host = some st' → st = st') ∧
    (∀ st st' : Seat, room.guest = some st → room.guest = some st' → st = st')

/-! ## Lemmas about the association-list operations -/

theorem getA_cons [DecidableEq κ] (a : κ) (b : α) (t : List (κ × α)) (k : κ) :
    getA ((a, b) :: t) k = if k = a then some b else getA t k := rfl

theorem setA_cons [DecidableEq κ] (a : κ) (b : α) (t : List (κ × α)) (k : κ) (v : α) :
    setA ((a, b) :: t) k v = if k = a then (k, v) :: t else (a, b) :: setA t k v := rfl

theorem delA_cons [DecidableEq κ] (a : κ) (b : α) (t : List (κ × α)) (k : κ) :
    delA ((a, b) :: t) k = if a = k then delA t k else (a, b) :: delA t k := by
  by_cases h : a = k <;> simp [delA, List.filter_cons, h]

theorem updA_cons [DecidableEq κ] (a : κ) (b : α) (t : List (κ × α)) (k : κ) (f : α → α) :
    updA ((a, b) :: t) k f = (if a = k then (a, f b) else (a, b)) :: updA t k f := by
  by_cases h : a = k <;> simp [updA, h]

theorem getA_setA_self [DecidableEq κ] (l : List (κ × α)) (k : κ) (v : α) :
    getA (setA l k v) k = some v := by
  induction l with
  | nil => simp [setA, getA]
  | cons p t ih =>
    obtain ⟨a, b⟩ := p
    rw [setA_cons]
    by_cases h : k = a
    · rw [if_pos h, getA_cons, if_pos rfl]
    · rw [if_neg h, getA_cons, if_neg h]
      exact ih

theorem getA_setA_ne [DecidableEq κ] (l : List (κ × α)) (k k' : κ) (v : α)
    (h : k' ≠ k) : getA (setA l k v) k' = getA l k' := by
  induction l with
  | nil => simp [setA, getA, h]
  | cons p t ih =>
    obtain ⟨a, b⟩ := p
    rw [setA_cons]
    by_cases hk : k = a
    · rw [if_pos hk, getA_cons, getA_cons, ← hk]
      rw [if_neg h, if_neg (hk ▸ h)]
    · rw [if_neg hk, getA_cons, getA_cons]
      by_cases hk' : k' = a
      · rw [if_pos hk', if_pos hk']
      · rw [if_neg hk', if_neg hk']
        exact ih

theorem getA_delA_self [DecidableEq κ] (l : List (κ × α)) (k : κ) :
    getA (delA l k) k = none := by
  induction l with
  | nil => simp [delA, getA]
  | cons p t ih =>
    obtain ⟨a, b⟩ := p
    rw [delA_cons]
    by_cases h : a = k
    · rw [if_pos h]; exact ih
    · rw [if_neg h, getA_cons, if_neg (fun hk => h hk.symm)]
      exact ih

theorem getA_delA_ne [DecidableEq κ] (l : List (κ × α)) (k k' : κ)
    (h : k' ≠ k) : getA (delA l k) k' = getA l k' := by
  induction l with
  | nil => simp [delA, getA]
  | cons p t ih =>
    obtain ⟨a, b⟩ := p
    rw [delA_cons]
    by_cases hp : a = k
    · rw [if_pos hp, getA_cons, if_neg (fun hk => h (hk.trans hp))]
      exact ih
    · rw [if_neg hp, getA_cons, getA_cons]
      by_cases hk' : k' = a
      · rw [if_pos hk', if_pos hk']
      · rw [if_neg hk', if_neg hk']
        exact ih

theorem getA_updA_self [DecidableEq κ] (l : List (κ × α)) (k : κ) (f : α → α) :
    getA (updA l k f) k = (getA l k).map f := by
  induction l with
  | nil => simp [updA, getA]
  | cons p t ih =>
    obtain ⟨a, b⟩ := p
    rw [updA_cons]
    by_cases h : a = k
    · rw [if_pos h, getA_cons, getA_cons, if_pos h.symm, if_pos h.symm]
      rfl
    · rw [if_neg h, getA_cons, getA_cons, if_neg (fun hk => h hk.symm),
        if_neg (fun hk => h hk.symm)]
      exact ih

theorem getA_updA_ne [DecidableEq κ] (l : List (κ × α)) (k k' : κ) (f : α → α)
    (h : k' ≠ k) : getA (updA l k f) k' = getA l k' := by
  induction l with
  | nil => simp [updA, getA]
  | cons p t ih =>
    obtain ⟨a, b⟩ := p
    rw [updA_cons]
    by_cases hp : a = k
    · rw [if_pos hp, getA_cons, getA_cons, if_neg (fun hk => h (hk.trans hp)),
        if_neg (fun hk => h (hk.trans hp))]
      exact ih
    · rw [if_neg hp, getA_cons, getA_cons]
      by_cases hk' : k' = a
      · rw [if_pos hk', if_pos hk']
      · rw [if_neg hk', if_neg hk']
        exact ih

theorem countKey_setA_absent [DecidableEq κ] (l : List (κ × α)) (k : κ) (v : α)
    (h : getA l k = none) : countKey (setA l k v) k = 1 := by
  induction l with
  | nil => simp [setA, countKey, List.filter]
  | cons p t ih =>
    obtain ⟨a, b⟩ := p
    rw [getA_cons] at h
    by_cases hp : k = a
    · rw [if_pos hp] at h; exact absurd h (by simp)
    · rw [if_neg hp] at h
      rw [setA_cons, if_neg hp]
      have hne : ¬ a = k := fun hk => hp hk.symm
      have : countKey ((a, b) :: setA t k v) k =
          countKey (setA t k v) k := by
        simp [countKey, List.filter_cons, hne]
      rw [this]
      exact ih h

/-! ## Component-preservation lemmas for the basic operations -/

@[simp] theorem sendTo_rooms (s : ServerState) (c : ConnId) (m : OutMsg) :
    (sendTo s c m).rooms = s.rooms := rfl

@[simp] theorem sendTo_heap (s : ServerState) (c : ConnId) (m : OutMsg) :
    (sendTo s c m).heap = s.heap := rfl

@[simp] theorem sendTo_roomTimeouts (s : ServerState) (c : ConnId) (m : OutMsg) :
    (sendTo s c m).roomTimeouts = s.roomTimeouts := rfl

@[simp] theorem sendTo_connections (s : ServerState) (c : ConnId) (m : OutMsg) :
    (sendTo s c m).connections = s.connections := rfl

@[simp] theorem closeWs_rooms (s : ServerState) (c : ConnId) (code : Nat) (reason : String) :
    (closeWs s c code reason).rooms = s.rooms := rfl

@[simp] theorem closeWs_heap (s : ServerState) (c : ConnId) (code : Nat) (reason : String) :
    (closeWs s c code reason).heap = s.heap := rfl

@[simp] theorem closeWs_roomTimeouts (s : ServerState) (c : ConnId) (code : Nat) (reason : String) :
    (closeWs s c code reason).roomTimeouts = s.roomTimeouts := rfl

@[simp] theorem closeWs_connections (s : ServerState) (c : ConnId) (code : Nat) (reason : String) :
    (closeWs s c code reason).connections = s.connections := rfl

@[simp] theorem notifyIfOpen_rooms (s : ServerState) (seat : Option Seat) (m : OutMsg) :
    (notifyIfOpen s seat m).rooms = s.rooms := by
  cases seat with
  | none => rfl
  | some st => by_cases h : connIsOpen s st.ws <;> simp [notifyIfOpen, h]

@[simp] theorem notifyIfOpen_heap (s : ServerState) (seat : Option Seat) (m : OutMsg) :
    (notifyIfOpen s seat m).heap = s.heap := by
  cases seat with
  | none => rfl
  | some st => by_cases h : connIsOpen s st.ws <;> simp [notifyIfOpen, h]

@[simp] theorem notifyIfOpen_roomTimeouts (s : ServerState) (seat : Option Seat) (m : OutMsg) :
    (notifyIfOpen s seat m).roomTimeouts = s.roomTimeouts := by
  cases seat with
  | none => rfl
  | some st => by_cases h : connIsOpen s st.ws <;> simp [notifyIfOpen, h]

@[simp] theorem notifyIfOpen_connections (s : ServerState) (seat : Option Seat) (m : OutMsg) :
    (notifyIfOpen s seat m).connections = s.connections := by
  cases seat with
  | none => rfl
  | some st => by_cases h : connIsOpen s st.ws <;> simp [notifyIfOpen, h]

@[simp] theorem closeSeatIfOpen_rooms (s : ServerState) (seat : Option Seat) :
    (closeSeatIfOpen s seat).rooms = s.rooms := by
  cases seat with
  | none => rfl
  | some st => by_cases h : connIsOpen s st.ws <;> simp [closeSeatIfOpen, h]

@[simp] theorem closeSeatIfOpen_heap (s : ServerState) (seat : Option Seat) :
    (closeSeatIfOpen s seat).heap = s.heap := by
  cases seat with
  | none => rfl
  | some st => by_cases h : connIsOpen s st.ws <;> simp [closeSeatIfOpen, h]

@[simp] theorem closeSeatIfOpen_roomTimeouts (s : ServerState) (seat : Option Seat) :
    (closeSeatIfOpen s seat).roomTimeouts = s.roomTimeouts := by
  cases seat with
  | none => rfl
  | some st => by_cases h : connIsOpen s st.ws <;> simp [closeSeatIfOpen, h]

@[simp] theorem closeSeatIfOpen_connections (s : ServerState) (seat : Option Seat) :
    (closeSeatIfOpen s seat).connections = s.connections := by
  cases seat with
  | none => rfl
  | some st => by_cases h : connIsOpen s st.ws <;> simp [closeSeatIfOpen, h]

/-! ## C8: idempotence of the expiry fire handler -/

/-- C8: the room-expiry fire handler `closeRoom` is idempotent on absent
rooms: invoked with a room id that is not in the registry it is a strict
no-op (the whole state is unchanged, so no connection close is attempted and
the registry is untouched), invoking it twice in a row on such an id is a
no-op both times, and a second consecutive invocation on any id never does
anything beyond the first (after the first removal the room is absent). -/
theorem C8_closeRoom_idempotent (s : ServerState) (roomId : String) :
    (getA s.rooms roomId = none →
      closeRoom s roomId = s ∧ closeRoom (closeRoom s roomId) roomId = s) ∧
    closeRoom (closeRoom s roomId) roomId = closeRoom s roomId := by
  have habs : ∀ s' : ServerState, roomOfId s' roomId = none → closeRoom s' roomId = s' := by
    intro s' h
    simp [closeRoom, h]
  constructor
  · intro h
    have h0 : roomOfId s roomId = none := by simp [roomOfId, h]
    have h1 := habs s h0
    refine ⟨h1, ?_⟩
    rw [h1, h1]
  · cases hro : roomOfId s roomId with
    | none => rw [habs s hro, habs s hro]
    | some room =>
      apply habs
      have hrooms : (closeRoom s roomId).rooms = delA s.rooms roomId := by
        simp [closeRoom, hro]
      simp [roomOfId, hrooms, getA_delA_self]

/-- C8 witness: at the concrete empty registry and room id `X`, both calls
are no-ops. -/
theorem C8_closeRoom_idempotent_witness :
    closeRoom initState "X" = initState ∧
    closeRoom (closeRoom initState "X") "X" = initState :=
  (C8_closeRoom_idempotent initState "X").1 rfl

/-! ## C4: verbatim exactly-once relay to an open opposite seat -/

/-- C4: when a seated sender's parsed message arrives while the opposite
seat of the captured room holds an open connection, that connection receives
exactly one new frame, namely the raw inbound payload itself (`OutMsg.relay
raw`, byte-for-byte), the sender receives nothing (its connection record is
unchanged), every other connection is untouched, and neither rooms nor heap
nor `connections` change. -/
theorem C4_relay_verbatim (s s' : ServerState) (c : ConnId) (ci : ConnInfo)
    (ctx : HandlerCtx) (room : Room) (t : Seat) (tci : ConnInfo)
    (raw : String) (typeTag : Option String)
    (hc : getA s.conns c = some ci)
    (hopen : ci.state = ReadyState.OPEN)
    (hh : ci.handler = some ctx)
    (hroom : getA s.heap ctx.roomRef = some room)
    (hsender : (if ctx.isHost then room.host else room.guest) = some ⟨c, ctx.playerId⟩)
    (htgt : (if ctx.isHost then room.guest else room.host) = some t)
    (htopen : connIsOpen s t.ws = true)
    (htc : getA s.conns t.ws = some tci)
    (hne : t.ws ≠ c)
    (hs' : s' = stepA s (Event.message c raw (ParseOutcome.ok typeTag))) :
    getA s'.conns t.ws = some { tci with sent := tci.sent ++ [OutMsg.relay raw] } ∧
    getA s'.conns c = some ci ∧
    (∀ x, x ≠ t.ws → getA s'.conns x = getA s.conns x) ∧
    s'.heap = s.heap ∧ s'.rooms = s.rooms ∧ s'.connections = s.connections := by
  subst hs'
  simp only [stepA, hc, hopen, hh, handleMessage, hroom, htgt, htopen, sendTo, if_true]
  refine ⟨?_, ?_, ?_, trivial, trivial, trivial⟩
  · rw [getA_updA_self, htc]
    rfl
  · rw [getA_updA_ne _ _ _ _ (fun hx => hne hx.symm), hc]
  · intro x hx
    rw [getA_updA_ne _ _ _ _ hx]

/-- C4 witness: in the concrete two-player room, a `move` frame from the
host is appended verbatim, exactly once, to the guest's outbox. -/
theorem C4_relay_verbatim_witness :
    getA (stepA sBothJoined (Event.message 0 "MOVE-E2E4" (ParseOutcome.ok (some "move")))).conns 1 =
      some ⟨ReadyState.OPEN,
        [OutMsg.connected "R" "G" false, OutMsg.relay "MOVE-E2E4"], none,
        some ⟨"R", "G", false, 0, "R-G"⟩, false⟩ :=
  (C4_relay_verbatim sBothJoined _ 0
    ⟨ReadyState.OPEN, [OutMsg.connected "R" "H" true, OutMsg.playerJoined "G"], none,
      some ⟨"R", "H", true, 0, "R-H"⟩, false⟩
    ⟨"R", "H", true, 0, "R-H"⟩
    ⟨some ⟨0, "H"⟩, some ⟨1, "G"⟩, 0⟩
    ⟨1, "G"⟩
    ⟨ReadyState.OPEN, [OutMsg.connected "R" "G" false], none,
      some ⟨"R", "G", false, 0, "R-G"⟩, false⟩
    "MOVE-E2E4" (some "move")
    rfl rfl rfl rfl rfl rfl rfl rfl (by decide) rfl).1

/-! ## Further preservation lemmas -/

theorem connIsOpen_updA_statePreserving (s : ServerState) (c0 x : ConnId)
    (f : ConnInfo → ConnInfo) (hf : ∀ ci, (f ci).state = ci.state) :
    connIsOpen { s with conns := updA s.conns c0 f } x = connIsOpen s x := by
  unfold connIsOpen
  by_cases h : x = c0
  · subst h
    show (match getA (updA s.conns x f) x with
      | some ci => ci.state.isOpen
      | none => false) = _
    rw [getA_updA_self]
    cases getA s.conns x with
    | none => rfl
    | some ci => simp [Option.map, hf]
  · show (match getA (updA s.conns c0 f) x with
      | some ci => ci.state.isOpen
      | none => false) = _
    rw [getA_updA_ne _ _ _ _ h]

theorem connIsOpen_sendTo (s : ServerState) (c0 x : ConnId) (m : OutMsg) :
    connIsOpen (sendTo s c0 m) x = connIsOpen s x :=
  connIsOpen_updA_statePreserving s c0 x _ (fun _ => rfl)

/-! ## C7: message while the opposite seat is empty or closed -/

/-- C7: a parseable message from a seated, open sender while the opposite
seat of the captured room is empty or not open has exactly one of two
outcomes, and never both.  In variant A the designated best-effort category
is `type === 'move'`: a `move` frame is dropped silently (the sender's
record is unchanged), any other frame puts exactly one peer-unavailable
error event in the sender's outbox; in either case no other connection
receives anything and the sender stays open.  In variant B there is no
best-effort category: the sender always receives exactly one error event,
no other connection receives anything, the sender stays open, and the
captured room only has its `lastActivity` refreshed.  Both handlers are
total functions (no exception). -/
theorem C7_peer_unavailable :
    (∀ (s s' : ServerState) (c : ConnId) (ci : ConnInfo) (ctx : HandlerCtx)
      (room : Room) (raw : String) (typeTag : Option String),
      getA s.conns c = some ci →
      ci.state = ReadyState.OPEN →
      ci.handler = some ctx →
      getA s.heap ctx.roomRef = some room →
      (if ctx.isHost then room.host else room.guest) = some ⟨c, ctx.playerId⟩ →
      seatOnline s (if ctx.isHost then room.guest else room.host) = false →
      s' = stepA s (Event.message c raw (ParseOutcome.ok typeTag)) →
      (typeTag = some "move" → getA s'.conns c = some ci) ∧
      (typeTag ≠ some "move" →
        getA s'.conns c = some { ci with
          sent := ci.sent ++ [OutMsg.errorMsg "Other player is not connected"] }) ∧
      (∀ x, x ≠ c → getA s'.conns x = getA s.conns x) ∧
      connIsOpen s' c = true) ∧
    (∀ (s : VariantB.BState) (room : VariantB.BRoom) (c : ConnId)
      (ci : VariantB.BConn) (isHost : Bool) (pid raw : String)
      (typeTag : Option String) (now : Nat),
      getA s.conns c = some ci →
      ci.state = ReadyState.OPEN →
      (if isHost then room.host else room.guest) = some ⟨c, pid⟩ →
      VariantB.seatOnlineB s (if isHost then room.guest else room.host) = false →
      getA (VariantB.handleMessage s room c isHost raw (ParseOutcome.ok typeTag) now).1.conns c =
        some { ci with
          sent := ci.sent ++ [OutMsg.errorMsg "Other player is not connected"] } ∧
      (∀ x, x ≠ c →
        getA (VariantB.handleMessage s room c isHost raw (ParseOutcome.ok typeTag) now).1.conns x =
          getA s.conns x) ∧
      VariantB.connIsOpenB (VariantB.handleMessage s room c isHost raw (ParseOutcome.ok typeTag) now).1 c = true ∧
      (VariantB.handleMessage s room c isHost raw (ParseOutcome.ok typeTag) now).2 =
        { room with lastActivity := now }) := by
  constructor
  · intro s s' c ci ctx room raw typeTag hc hopen hh hroom hsender hoff hs'
    subst hs'
    cases htgt : (if ctx.isHost then room.guest else room.host) with
    | none =>
      by_cases htag : typeTag = some "move"
      · refine ⟨fun _ => ?_, fun hcon => absurd htag hcon, fun x _ => ?_, ?_⟩
        · simp [stepA, hc, hopen, hh, handleMessage, hroom, htgt, noTargetReply, htag]
        · simp [stepA, hc, hopen, hh, handleMessage, hroom, htgt, noTargetReply, htag]
        · simp [stepA, hc, hopen, hh, handleMessage, hroom, htgt, noTargetReply, htag,
            connIsOpen, ReadyState.isOpen]
      · refine ⟨fun hcon => absurd hcon htag, fun _ => ?_, fun x hx => ?_, ?_⟩
        · simp [stepA, hc, hopen, hh, handleMessage, hroom, htgt, noTargetReply, htag,
            sendTo, getA_updA_self]
        · simp [stepA, hc, hopen, hh, handleMessage, hroom, htgt, noTargetReply, htag,
            sendTo, getA_updA_ne _ _ _ _ hx]
        · simp [stepA, hc, hopen, hh, handleMessage, hroom, htgt, noTargetReply, htag,
            sendTo, connIsOpen, getA_updA_self, ReadyState.isOpen]
    | some t =>
      have htoff : connIsOpen s t.ws = false := by
        rw [htgt] at hoff
        simpa [seatOnline] using hoff
      by_cases htag : typeTag = some "move"
      · refine ⟨fun _ => ?_, fun hcon => absurd htag hcon, fun x _ => ?_, ?_⟩
        · simp [stepA, hc, hopen, hh, handleMessage, hroom, htgt, htoff, noTargetReply, htag]
        · simp [stepA, hc, hopen, hh, handleMessage, hroom, htgt, htoff, noTargetReply, htag]
        · have hconns : (stepA s (Event.message c raw (ParseOutcome.ok typeTag))).conns =
              s.conns := by
            simp [stepA, hc, hopen, hh, handleMessage, hroom, htgt, htoff, noTargetReply, htag]
          simp [connIsOpen, hconns, hc, hopen, ReadyState.isOpen]
      · refine ⟨fun hcon => absurd hcon htag, fun _ => ?_, fun x hx => ?_, ?_⟩
        · simp [stepA, hc, hopen, hh, handleMessage, hroom, htgt, htoff, noTargetReply, htag,
            sendTo, getA_updA_self]
        · simp [stepA, hc, hopen, hh, handleMessage, hroom, htgt, htoff, noTargetReply, htag,
            sendTo, getA_updA_ne _ _ _ _ hx]
        · have hconns : (stepA s (Event.message c raw (ParseOutcome.ok typeTag))).conns =
              updA s.conns c (fun ci => { ci with
                sent := ci.sent ++ [OutMsg.errorMsg "Other player is not connected"] }) := by
            simp [stepA, hc, hopen, hh, handleMessage, hroom, htgt, htoff, noTargetReply, htag,
              sendTo]
          simp [connIsOpen, hconns, getA_updA_self, hc, hopen, ReadyState.isOpen]
  · intro s room c ci isHost pid raw typeTag now hc hopen hsender hoff
    cases htgt : (if isHost then room.guest else room.host) with
    | none =>
      refine ⟨?_, fun x hx => ?_, ?_, ?_⟩
      · simp [VariantB.handleMessage, htgt, VariantB.sendToB, getA_updA_self, hc]
      · simp [VariantB.handleMessage, htgt, VariantB.sendToB, getA_updA_ne _ _ _ _ hx]
      · simp [VariantB.handleMessage, htgt, VariantB.sendToB, VariantB.connIsOpenB,
          getA_updA_self, hc, hopen, ReadyState.isOpen]
      · simp [VariantB.handleMessage, htgt, VariantB.sendToB]
    | some t =>
      have htoff : VariantB.connIsOpenB s t.ws = false := by
        rw [htgt] at hoff
        simpa [VariantB.seatOnlineB] using hoff
      refine ⟨?_, fun x hx => ?_, ?_, ?_⟩
      · simp [VariantB.handleMessage, htgt, htoff, VariantB.sendToB, getA_updA_self, hc]
      · simp [VariantB.handleMessage, htgt, htoff, VariantB.sendToB, getA_updA_ne _ _ _ _ hx]
      · have hconns :
            (VariantB.handleMessage s room c isHost raw (ParseOutcome.ok typeTag) now).1.conns =
              updA s.conns c (fun ci => { ci with
                sent := ci.sent ++ [OutMsg.errorMsg "Other player is not connected"] }) := by
          simp [VariantB.handleMessage, htgt, htoff, VariantB.sendToB]
        simp [VariantB.connIsOpenB, hconns, getA_updA_self, hc, hopen, ReadyState.isOpen]
      · simp [VariantB.handleMessage, htgt, htoff, VariantB.sendToB]

/-- C7 witness: with the guest seat empty, a non-`move` frame from the host
yields exactly one peer-unavailable error back to the host, in variant A and
in variant B. -/
theorem C7_peer_unavailable_witness :
    getA (stepA sHostJoined (Event.message 0 "CHAT1" (ParseOutcome.ok (some "chat")))).conns 0 =
      some ⟨ReadyState.OPEN,
        [OutMsg.connected "R" "H" true, OutMsg.errorMsg "Other player is not connected"], none,
        some ⟨"R", "H", true, 0, "R-H"⟩, false⟩ ∧
    getA (VariantB.handleMessage sBHostJoined ⟨some ⟨0, "H"⟩, none, 3, 3⟩ 0 true "CHAT2"
        (ParseOutcome.ok (some "chat")) 7).1.conns 0 =
      some ⟨ReadyState.OPEN,
        [OutMsg.connected "R" "H" true, OutMsg.errorMsg "Other player is not connected"], none, true⟩ :=
  ⟨(C7_peer_unavailable.1 sHostJoined _ 0
      ⟨ReadyState.OPEN, [OutMsg.connected "R" "H" true], none,
        some ⟨"R", "H", true, 0, "R-H"⟩, false⟩
      ⟨"R", "H", true, 0, "R-H"⟩
      ⟨some ⟨0, "H"⟩, none, 0⟩
      "CHAT1" (some "chat")
      rfl rfl rfl rfl rfl rfl rfl).2.1 (by decide),
   (C7_peer_unavailable.2 sBHostJoined ⟨some ⟨0, "H"⟩, none, 3, 3⟩ 0
      ⟨ReadyState.OPEN, [OutMsg.connected "R" "H" true], none, true⟩
      true "H" "CHAT2" (some "chat") 7
      rfl rfl rfl rfl).1⟩

/-! ## C6: seat-taken rejection leaves the room untouched -/

/-- C6: a join request targeting a seat occupied by an open connection is
answered with the distinguishable seat-taken signal (`Room already has a
host` for the host seat, `Room is full` for the guest seat) and the incoming
socket is closed with code 1008, while the registry, the room heap (hence
both seats of the room) and the timer map are unchanged and the seated
occupant's connection record is untouched. -/
theorem C6_seat_taken (s s' : ServerState) (c : ConnId) (ref : Nat) (room : Room)
    (t : Seat) (tci : ConnInfo) (rid pid : String) (isHost : Bool)
    (hfresh : getA s.conns c = none)
    (hrid : strFalsy (some rid) = false) (hpid : strFalsy (some pid) = false)
    (hreg : getA s.rooms rid = some ref)
    (hheap : getA s.heap ref = some room)
    (hseat : (if isHost then room.host else room.guest) = some t)
    (htci : getA s.conns t.ws = some tci)
    (hstate : tci.state = ReadyState.OPEN)
    (hne : t.ws ≠ c)
    (hs' : s' = stepA s (Event.connect c (some rid) (some pid) isHost)) :
    getA s'.conns c = some ⟨ReadyState.CLOSING,
        [OutMsg.errorMsg (if isHost then "Room already has a host" else "Room is full")],
        some (1008, if isHost then "Room already has a host" else "Room already has a guest"),
        none, false⟩ ∧
    s'.rooms = s.rooms ∧
    s'.heap = s.heap ∧
    s'.roomTimeouts = s.roomTimeouts ∧
    getA s'.conns t.ws = getA s.conns t.ws := by
  subst hs'
  cases isHost with
  | false =>
    have hseat' : room.guest = some t := by simpa using hseat
    refine ⟨?_, ?_, ?_, ?_, ?_⟩
    · simp [stepA, hfresh, handleConnect, hrid, hpid, afterRoomInit, hreg, hheap, hseat',
        seatOnline, connIsOpen, getA_setA_ne _ _ _ _ hne, htci, hstate, ReadyState.isOpen,
        sendTo, closeWs, getA_updA_self, getA_setA_self]
    · simp [stepA, hfresh, handleConnect, hrid, hpid, afterRoomInit, hreg, hheap, hseat',
        seatOnline, connIsOpen, getA_setA_ne _ _ _ _ hne, htci, hstate, ReadyState.isOpen]
    · simp [stepA, hfresh, handleConnect, hrid, hpid, afterRoomInit, hreg, hheap, hseat',
        seatOnline, connIsOpen, getA_setA_ne _ _ _ _ hne, htci, hstate, ReadyState.isOpen]
    · simp [stepA, hfresh, handleConnect, hrid, hpid, afterRoomInit, hreg, hheap, hseat',
        seatOnline, connIsOpen, getA_setA_ne _ _ _ _ hne, htci, hstate, ReadyState.isOpen]
    · simp [stepA, hfresh, handleConnect, hrid, hpid, afterRoomInit, hreg, hheap, hseat',
        seatOnline, connIsOpen, getA_setA_ne _ _ _ _ hne, htci, hstate, ReadyState.isOpen,
        sendTo, closeWs, getA_updA_ne _ _ _ _ hne, htci]
  | true =>
    have hseat' : room.host = some t := by simpa using hseat
    refine ⟨?_, ?_, ?_, ?_, ?_⟩
    · simp [stepA, hfresh, handleConnect, hrid, hpid, afterRoomInit, hreg, hheap, hseat',
        seatOnline, connIsOpen, getA_setA_ne _ _ _ _ hne, htci, hstate, ReadyState.isOpen,
        sendTo, closeWs, getA_updA_self, getA_setA_self]
    · simp [stepA, hfresh, handleConnect, hrid, hpid, afterRoomInit, hreg, hheap, hseat',
        seatOnline, connIsOpen, getA_setA_ne _ _ _ _ hne, htci, hstate, ReadyState.isOpen]
    · simp [stepA, hfresh, handleConnect, hrid, hpid, afterRoomInit, hreg, hheap, hseat',
        seatOnline, connIsOpen, getA_setA_ne _ _ _ _ hne, htci, hstate, ReadyState.isOpen]
    · simp [stepA, hfresh, handleConnect, hrid, hpid, afterRoomInit, hreg, hheap, hseat',
        seatOnline, connIsOpen, getA_setA_ne _ _ _ _ hne, htci, hstate, ReadyState.isOpen]
    · simp [stepA, hfresh, handleConnect, hrid, hpid, afterRoomInit, hreg, hheap, hseat',
        seatOnline, connIsOpen, getA_setA_ne _ _ _ _ hne, htci, hstate, ReadyState.isOpen,
        sendTo, closeWs, getA_updA_ne _ _ _ _ hne, htci]

/-- C6 witness: a second host connecting to the concrete room `R` whose host
seat is open is sent the seat-taken error and closed with 1008, and the room
heap is unchanged. -/
theorem C6_seat_taken_witness :
    getA (stepA sHostJoined (Event.connect 3 (some "R") (some "H2") true)).conns 3 =
      some ⟨ReadyState.CLOSING, [OutMsg.errorMsg "Room already has a host"],
        some (1008, "Room already has a host"), none, false⟩ ∧
    (stepA sHostJoined (Event.connect 3 (some "R") (some "H2") true)).heap = sHostJoined.heap := by
  have h := C6_seat_taken sHostJoined _ 3 0 ⟨some ⟨0, "H"⟩, none, 0⟩ ⟨0, "H"⟩
    ⟨ReadyState.OPEN, [OutMsg.connected "R" "H" true], none,
      some ⟨"R", "H", true, 0, "R-H"⟩, false⟩
    "R" "H2" true rfl rfl rfl rfl rfl rfl rfl rfl (by decide) rfl
  exact ⟨h.1, h.2.2.1⟩

@[simp] theorem clearRoomTimeout_heap (s : ServerState) (rid : String) :
    (clearRoomTimeout s rid).heap = s.heap := rfl

@[simp] theorem clearRoomTimeout_conns (s : ServerState) (rid : String) :
    (clearRoomTimeout s rid).conns = s.conns := rfl

@[simp] theorem clearRoomTimeout_connections (s : ServerState) (rid : String) :
    (clearRoomTimeout s rid).connections = s.connections := rfl

@[simp] theorem clearRoomTimeout_rooms (s : ServerState) (rid : String) :
    (clearRoomTimeout s rid).rooms = s.rooms := rfl

@[simp] theorem updateRoomTimeout_heap (s : ServerState) (rid : String) :
    (updateRoomTimeout s rid).heap = s.heap := by
  simp only [updateRoomTimeout]
  cases h : roomOfId (clearRoomTimeout s rid) rid <;> simp [h]

@[simp] theorem updateRoomTimeout_conns (s : ServerState) (rid : String) :
    (updateRoomTimeout s rid).conns = s.conns := by
  simp only [updateRoomTimeout]
  cases h : roomOfId (clearRoomTimeout s rid) rid <;> simp [h]

@[simp] theorem updateRoomTimeout_connections (s : ServerState) (rid : String) :
    (updateRoomTimeout s rid).connections = s.connections := by
  simp only [updateRoomTimeout]
  cases h : roomOfId (clearRoomTimeout s rid) rid <;> simp [h]

@[simp] theorem updateRoomTimeout_rooms (s : ServerState) (rid : String) :
    (updateRoomTimeout s rid).rooms = s.rooms := by
  simp only [updateRoomTimeout]
  cases h : roomOfId (clearRoomTimeout s rid) rid <;> simp [h]

@[simp] theorem notifyIfOpen_conns_ne (s : ServerState) (seat : Option Seat) (m : OutMsg)
    (x : ConnId) (hx : ∀ g : Seat, seat = some g → g.ws ≠ x) :
    getA (notifyIfOpen s seat m).conns x = getA s.conns x := by
  cases hseat : seat with
  | none => rfl
  | some g =>
    by_cases hopen : connIsOpen s g.ws
    · simp [notifyIfOpen, hopen, sendTo,
        getA_updA_ne _ _ _ _ (Ne.symm (hx g hseat))]
    · simp [notifyIfOpen, hopen]

/-! ## C9: a stale close event evicts the seat's current occupant -/

theorem notifyIfOpenB_conns_ne (s : VariantB.BState) (seat : Option Seat) (m : OutMsg)
    (x : ConnId) (hx : ∀ g : Seat, seat = some g → g.ws ≠ x) :
    getA (VariantB.notifyIfOpenB s seat m).conns x = getA s.conns x := by
  cases hseat : seat with
  | none => rfl
  | some g =>
    by_cases hopen : VariantB.connIsOpenB s g.ws
    · simp [VariantB.notifyIfOpenB, hopen, VariantB.sendToB,
        getA_updA_ne _ _ _ _ (Ne.symm (hx g hseat))]
    · simp [VariantB.notifyIfOpenB, hopen]

@[simp] theorem scheduleCleanupIfEmpty_conns (s : VariantB.BState) (room : VariantB.BRoom)
    (rid : String) :
    (VariantB.scheduleCleanupIfEmpty s room rid).conns = s.conns := by
  by_cases h : (room.host.isNone && room.guest.isNone) = true <;>
    simp [VariantB.scheduleCleanupIfEmpty, h]

/-- The connection table that `VariantB.handleClose` returns is exactly the
one produced by the opposite-seat notification (the other steps touch only
`connections`, `pendingCleanups` and the room object). -/
theorem handleCloseB_conns (s : VariantB.BState) (r : VariantB.BRoom)
    (cid rid : String) (ih : Bool) (n : Nat) :
    (VariantB.handleClose s r cid rid ih n).1.conns =
      (VariantB.notifyIfOpenB { s with connections := delA s.connections cid }
        (if ih then r.guest else r.host)
        (if ih then OutMsg.hostDisconnected else OutMsg.guestDisconnected)).conns := by
  cases ih with
  | true => simp [VariantB.handleClose]
  | false => simp [VariantB.handleClose]

/-- C9: the close handler clears its own role's seat of the room object
captured at join time unconditionally.  If by the time the close event of
connection `c` is dispatched the same seat is occupied by a different,
newer connection `ev`, the handler still sets that seat to empty and sends
nothing to `ev` (its connection record is completely unchanged); the
opposite seat is not modified.  This holds in variant A (`stepA` with
`Event.dispatchClose`) and in variant B (`VariantB.handleClose`). -/
theorem C9_stale_close_evicts :
    (∀ (s s' : ServerState) (c : ConnId) (ci : ConnInfo) (ctx : HandlerCtx)
      (room : Room) (ev : Seat) (evci : ConnInfo),
      getA s.conns c = some ci →
      ci.state = ReadyState.CLOSED →
      ci.closeDispatched = false →
      ci.handler = some ctx →
      getA s.heap ctx.roomRef = some room →
      (if ctx.isHost then room.host else room.guest) = some ev →
      ev.ws ≠ c →
      (∀ g : Seat, (if ctx.isHost then room.guest else room.host) = some g → g.ws ≠ ev.ws) →
      getA s.conns ev.ws = some evci →
      s' = stepA s (Event.dispatchClose c) →
      getA s'.heap ctx.roomRef =
        some (if ctx.isHost then { room with host := none } else { room with guest := none }) ∧
      getA s'.conns ev.ws = some evci) ∧
    (∀ (s : VariantB.BState) (room : VariantB.BRoom) (connectionId roomId : String)
      (isHost : Bool) (now : Nat) (ev : Seat) (evci : VariantB.BConn),
      (if isHost then room.host else room.guest) = some ev →
      (∀ g : Seat, (if isHost then room.guest else room.host) = some g → g.ws ≠ ev.ws) →
      getA s.conns ev.ws = some evci →
      (if isHost then
        (VariantB.handleClose s room connectionId roomId isHost now).2.host = none ∧
        (VariantB.handleClose s room connectionId roomId isHost now).2.guest = room.guest
       else
        (VariantB.handleClose s room connectionId roomId isHost now).2.guest = none ∧
        (VariantB.handleClose s room connectionId roomId isHost now).2.host = room.host) ∧
      getA (VariantB.handleClose s room connectionId roomId isHost now).1.conns ev.ws =
        some evci) := by
  constructor
  · intro s s' c ci ctx room ev evci hc hclosed hnd hh hroom hev hevne hopp hevci hs'
    subst hs'
    have hmark : getA (updA s.conns c (fun y => { y with closeDispatched := true })) ev.ws =
        getA s.conns ev.ws := getA_updA_ne _ _ _ _ hevne
    cases hctxh : ctx.isHost with
    | true =>
      have hev' : room.host = some ev := by simpa [hctxh] using hev
      constructor
      · simp [stepA, hc, hclosed, hnd, hh, handleClose, hroom, hctxh, hev', getA_setA_self]
      · simp [stepA, hc, hclosed, hnd, hh, handleClose, hctxh, hroom]
        rw [notifyIfOpen_conns_ne _ _ _ _
          (fun g hg => hopp g (by simpa [hctxh] using hg))]
        simpa [hmark] using hevci
    | false =>
      have hev' : room.guest = some ev := by simpa [hctxh] using hev
      constructor
      · simp [stepA, hc, hclosed, hnd, hh, handleClose, hroom, hctxh, hev', getA_setA_self]
      · simp [stepA, hc, hclosed, hnd, hh, handleClose, hctxh, hroom]
        rw [notifyIfOpen_conns_ne _ _ _ _
          (fun g hg => hopp g (by simpa [hctxh] using hg))]
        simpa [hmark] using hevci
  · intro s room connectionId roomId isHost now ev evci hev hopp hevci
    cases isHost with
    | true =>
      refine ⟨⟨?_, ?_⟩, ?_⟩
      · simp [VariantB.handleClose]
      · simp [VariantB.handleClose]
      · rw [handleCloseB_conns]
        rw [notifyIfOpenB_conns_ne]
        · exact hevci
        · intro g hg
          exact hopp g (by simpa using hg)
    | false =>
      refine ⟨⟨?_, ?_⟩, ?_⟩
      · simp [VariantB.handleClose]
      · simp [VariantB.handleClose]
      · rw [handleCloseB_conns]
        rw [notifyIfOpenB_conns_ne]
        · exact hevci
        · intro g hg
          exact hopp g (by simpa using hg)

/-- C9 witness: dispatching the stale close of connection 0 evicts the newer
host (connection 2) from the concrete room while leaving connection 2's
record (and outbox) untouched, and variant B's close handler likewise clears
the captured room's host seat. -/
theorem C9_stale_close_evicts_witness :
    getA (stepA sStaleTakeover (Event.dispatchClose 0)).heap 0 =
      some ⟨none, none, 0⟩ ∧
    getA (stepA sStaleTakeover (Event.dispatchClose 0)).conns 2 =
      some ⟨ReadyState.OPEN, [OutMsg.connected "R" "H2" true], none,
        some ⟨"R", "H2", true, 0, "R-H2"⟩, false⟩ ∧
    (VariantB.handleClose sBHostJoined ⟨some ⟨0, "H"⟩, none, 3, 3⟩ "R-H" "R" true 9).2.host =
      none := by
  have hA := C9_stale_close_evicts.1 sStaleTakeover _ 0
    ⟨ReadyState.CLOSED, [OutMsg.connected "R" "H" true], none,
      some ⟨"R", "H", true, 0, "R-H"⟩, false⟩
    ⟨"R", "H", true, 0, "R-H"⟩
    ⟨some ⟨2, "H2"⟩, none, 0⟩
    ⟨2, "H2"⟩
    ⟨ReadyState.OPEN, [OutMsg.connected "R" "H2" true], none,
      some ⟨"R", "H2", true, 0, "R-H2"⟩, false⟩
    rfl rfl rfl rfl rfl rfl (by decide)
    (by intro g hg; exact Option.noConfusion hg) rfl rfl
  have hB := C9_stale_close_evicts.2 sBHostJoined ⟨some ⟨0, "H"⟩, none, 3, 3⟩ "R-H" "R"
    true 9 ⟨0, "H"⟩
    ⟨ReadyState.OPEN, [OutMsg.connected "R" "H" true], none, true⟩
    rfl (by intro g hg; exact Option.noConfusion hg) rfl
  exact ⟨hA.1, hA.2, hB.1.1⟩

/-! ## C10: the `connections` map entry of a rejected join -/

/-- C10 counterexample: in variant A a guest join to a nonexistent room
passes the missing-parameter check but returns at the room-existence step,
before `connections.set` runs: from the empty initial state, guest `G`
joining absent room `R` leaves the `connections` map empty. -/
theorem C10_counterexample : ¬ ClaimC10Stated := by
  intro h
  have := h initState 0 "R" "G" false rfl rfl rfl
  exact absurd this (by decide)

/-- C10 amended: every join request that passes the missing-parameter check
and the room-existence step inserts its connection into `connections` under
`roomId-playerId` before seat validation; a join rejected for seat-taken
leaves that entry in place (overwriting any previous entry under the same
key) and registers no close handler for the rejected connection, and
dispatching the close of a handler-less connection never touches the
`connections` map, so the entry persists.  In variant B every request that
passes the parameter check reaches the insertion (the room is created when
absent); in variant A a guest join to a nonexistent room returns before the
insertion point. -/
theorem C10_connections_leak :
    (∀ (s s' : ServerState) (c : ConnId) (ref : Nat) (room : Room) (t : Seat)
       (tci : ConnInfo) (rid pid : String) (isHost : Bool),
      getA s.conns c = none →
      strFalsy (some rid) = false →
      strFalsy (some pid) = false →
      getA s.rooms rid = some ref →
      getA s.heap ref = some room →
      (if isHost then room.host else room.guest) = some t →
      getA s.conns t.ws = some tci →
      tci.state = ReadyState.OPEN →
      t.ws ≠ c →
      s' = stepA s (Event.connect c (some rid) (some pid) isHost) →
      getA s'.connections (rid ++ "-" ++ pid) = some c ∧
      getA s'.conns c = some ⟨ReadyState.CLOSING,
        [OutMsg.errorMsg (if isHost then "Room already has a host" else "Room is full")],
        some (1008, if isHost then "Room already has a host" else "Room already has a guest"),
        none, false⟩) ∧
    (∀ (s : ServerState) (c : ConnId) (ci : ConnInfo),
      getA s.conns c = some ci →
      ci.handler = none →
      (stepA s (Event.dispatchClose c)).connections = s.connections) ∧
    (∀ (s : VariantB.BState) (c : ConnId) (room : VariantB.BRoom) (t : Seat)
       (tci : VariantB.BConn) (rid pid : String) (isHost : Bool) (now : Nat),
      getA s.conns c = none →
      strFalsy (some rid) = false →
      strFalsy (some pid) = false →
      getA s.rooms rid = some room →
      (if isHost then room.host else room.guest) = some t →
      getA s.conns t.ws = some tci →
      tci.state = ReadyState.OPEN →
      t.ws ≠ c →
      getA (VariantB.handleConnect s c (some rid) (some pid) isHost now).connections
        (rid ++ "-" ++ pid) = some c ∧
      getA (VariantB.handleConnect s c (some rid) (some pid) isHost now).conns c =
        some ⟨ReadyState.CLOSING, [],
          some (1008, if isHost then "Room already has a host" else "Room already has a guest"),
          false⟩) := by
  refine ⟨?_, ?_, ?_⟩
  · intro s s' c ref room t tci rid pid isHost hfresh hrid hpid hreg hheap hseat htci hstate
      hne hs'
    subst hs'
    cases isHost with
    | false =>
      have hseat' : room.guest = some t := by simpa using hseat
      constructor
      · simp [stepA, hfresh, handleConnect, hrid, hpid, afterRoomInit, hreg, hheap, hseat',
          seatOnline, connIsOpen, getA_setA_ne _ _ _ _ hne, htci, hstate, ReadyState.isOpen,
          getA_setA_self]
      · simp [stepA, hfresh, handleConnect, hrid, hpid, afterRoomInit, hreg, hheap, hseat',
          seatOnline, connIsOpen, getA_setA_ne _ _ _ _ hne, htci, hstate, ReadyState.isOpen,
          sendTo, closeWs, getA_updA_self, getA_setA_self]
    | true =>
      have hseat' : room.host = some t := by simpa using hseat
      constructor
      · simp [stepA, hfresh, handleConnect, hrid, hpid, afterRoomInit, hreg, hheap, hseat',
          seatOnline, connIsOpen, getA_setA_ne _ _ _ _ hne, htci, hstate, ReadyState.isOpen,
          getA_setA_self]
      · simp [stepA, hfresh, handleConnect, hrid, hpid, afterRoomInit, hreg, hheap, hseat',
          seatOnline, connIsOpen, getA_setA_ne _ _ _ _ hne, htci, hstate, ReadyState.isOpen,
          sendTo, closeWs, getA_updA_self, getA_setA_self]
  · intro s c ci hc hnone
    by_cases hguard : ci.state = ReadyState.CLOSED ∧ ci.closeDispatched = false
    · simp only [stepA, hc]
      rw [if_pos hguard]
      simp [hnone]
    · simp only [stepA, hc]
      rw [if_neg hguard]
  · intro s c room t tci rid pid isHost now hfresh hrid hpid hreg hseat htci hstate hne
    cases isHost with
    | false =>
      have hseat' : room.guest = some t := by simpa using hseat
      constructor
      · simp [VariantB.handleConnect, hrid, hpid, hreg, hseat', VariantB.seatOnlineB,
          VariantB.connIsOpenB, getA_setA_ne _ _ _ _ hne, htci, hstate, ReadyState.isOpen,
          VariantB.closeWsB, getA_setA_self]
      · simp [VariantB.handleConnect, hrid, hpid, hreg, hseat', VariantB.seatOnlineB,
          VariantB.connIsOpenB, getA_setA_ne _ _ _ _ hne, htci, hstate, ReadyState.isOpen,
          VariantB.closeWsB, getA_updA_self, getA_setA_self]
    | true =>
      have hseat' : room.host = some t := by simpa using hseat
      constructor
      · simp [VariantB.handleConnect, hrid, hpid, hreg, hseat', VariantB.seatOnlineB,
          VariantB.connIsOpenB, getA_setA_ne _ _ _ _ hne, htci, hstate, ReadyState.isOpen,
          VariantB.closeWsB, getA_setA_self]
      · simp [VariantB.handleConnect, hrid, hpid, hreg, hseat', VariantB.seatOnlineB,
          VariantB.connIsOpenB, getA_setA_ne _ _ _ _ hne, htci, hstate, ReadyState.isOpen,
          VariantB.closeWsB, getA_updA_self, getA_setA_self]

/-- C10 witness: the rejected second host's entry `R-H2` is in the
`connections` map of both variants, and dispatching the rejected (handler-
less) connection's close leaves the map unchanged. -/
theorem C10_connections_leak_witness :
    getA (stepA sHostJoined (Event.connect 3 (some "R") (some "H2") true)).connections
      "R-H2" = some 3 ∧
    (stepA (stepA sHostJoined (Event.connect 3 (some "R") (some "H2") true))
        (Event.dispatchClose 3)).connections =
      (stepA sHostJoined (Event.connect 3 (some "R") (some "H2") true)).connections ∧
    getA (VariantB.handleConnect sBHostJoined 7 (some "R") (some "H2") true 4).connections
      "R-H2" = some 7 := by
  have hA := C10_connections_leak.1 sHostJoined _ 3 0 ⟨some ⟨0, "H"⟩, none, 0⟩ ⟨0, "H"⟩
    ⟨ReadyState.OPEN, [OutMsg.connected "R" "H" true], none,
      some ⟨"R", "H", true, 0, "R-H"⟩, false⟩
    "R" "H2" true rfl rfl rfl rfl rfl rfl rfl rfl (by decide) rfl
  have hB := C10_connections_leak.2.1
    (stepA sHostJoined (Event.connect 3 (some "R") (some "H2") true)) 3
    ⟨ReadyState.CLOSING, [OutMsg.errorMsg "Room already has a host"],
      some (1008, "Room already has a host"), none, false⟩
    rfl rfl
  have hC := C10_connections_leak.2.2 sBHostJoined 7 ⟨some ⟨0, "H"⟩, none, 3, 3⟩ ⟨0, "H"⟩
    ⟨ReadyState.OPEN, [OutMsg.connected "R" "H" true], none, true⟩
    "R" "H2" true 4 rfl rfl rfl rfl rfl rfl rfl (by decide)
  exact ⟨hA.1, hB, hC.1⟩

/-! ## C5: the disconnect transition -/

theorem connIsOpen_of_conns_eq (s s' : ServerState) (h : s.conns = s'.conns) (x : ConnId) :
    connIsOpen s x = connIsOpen s' x := by
  unfold connIsOpen
  rw [h]

theorem openCount_of_conns_eq (s s' : ServerState) (h : s.conns = s'.conns) (room : Room) :
    openCount s room = openCount s' room := by
  unfold openCount seatOnline connIsOpen
  rw [h]

theorem updateRoomTimeout_timer (s : ServerState) (rid : String) (ref : Nat) (room : Room)
    (h1 : getA s.rooms rid = some ref) (h2 : getA s.heap ref = some room) :
    getA (updateRoomTimeout s rid).roomTimeouts rid =
      some (timeoutForCount (openCount s room)) := by
  have hro : roomOfId (clearRoomTimeout s rid) rid = some room := by
    simp [roomOfId, clearRoomTimeout, h1, h2]
  simp only [updateRoomTimeout, hro]
  rw [getA_setA_self]
  rw [openCount_of_conns_eq (clearRoomTimeout s rid) s rfl]

/-- Variant A disconnect (transport close followed by the dispatch of the
close event) of a seated, open connection: the seat is cleared, the opposite
seat receives exactly one `opponent-disconnected` frame iff it is occupied
and open, the room's timer is re-armed from the post-disconnect occupancy,
and the open-seat count decreases by one. -/
theorem discA_spec (s s2 : ServerState) (c : ConnId) (ci : ConnInfo) (ctx : HandlerCtx)
    (room : Room) (pid : String)
    (hc : getA s.conns c = some ci)
    (hopen : ci.state = ReadyState.OPEN)
    (hnd : ci.closeDispatched = false)
    (hh : ci.handler = some ctx)
    (hreg : getA s.rooms ctx.roomId = some ctx.roomRef)
    (hheap : getA s.heap ctx.roomRef = some room)
    (hseat : (if ctx.isHost then room.host else room.guest) = some ⟨c, pid⟩)
    (hoppne : ∀ g : Seat, (if ctx.isHost then room.guest else room.host) = some g → g.ws ≠ c)
    (hs2 : s2 = stepA (stepA s (Event.transportClose c)) (Event.dispatchClose c)) :
    getA s2.heap ctx.roomRef =
      some (if ctx.isHost then { room with host := none } else { room with guest := none }) ∧
    (∀ (g : Seat) (gci : ConnInfo),
      (if ctx.isHost then room.guest else room.host) = some g →
      getA s.conns g.ws = some gci →
      getA s2.conns g.ws =
        some (if gci.state = ReadyState.OPEN
          then { gci with sent := gci.sent ++ [OutMsg.opponentDisconnected] }
          else gci)) ∧
    getA s2.roomTimeouts ctx.roomId =
      some (timeoutForCount (openCount s2
        (if ctx.isHost then { room with host := none } else { room with guest := none }))) ∧
    openCount s room =
      openCount s2 (if ctx.isHost then { room with host := none }
        else { room with guest := none }) + 1 := by
  have h1 : stepA s (Event.transportClose c) =
      { s with conns := updA s.conns c (fun x => { x with state := ReadyState.CLOSED }),
               time := s.time + 1 } := by
    simp [stepA, hc, hopen]
  subst hs2
  rw [h1]
  have hc1 : getA (updA s.conns c (fun x => { x with state := ReadyState.CLOSED })) c =
      some { ci with state := ReadyState.CLOSED } := by
    rw [getA_updA_self, hc]
    rfl
  cases hctxh : ctx.isHost with
  | true =>
    have hseat' : room.host = some ⟨c, pid⟩ := by simpa [hctxh] using hseat
    refine ⟨?_, ?_, ?_, ?_⟩
    · simp [stepA, hc1, hnd, hh, handleClose, hctxh, hheap, getA_setA_self]
    · intro g gci hg hgci
      have hg' : room.guest = some g := by simpa [hctxh] using hg
      have hgne : g.ws ≠ c := hoppne g (by rw [hctxh]; simpa using hg)
      by_cases hgs : gci.state = ReadyState.OPEN
      · simp [stepA, hc1, hnd, hh, handleClose, hctxh, hheap, hg', hgs, notifyIfOpen,
          connIsOpen, sendTo, getA_updA_self, getA_updA_ne _ _ _ _ hgne, hgci,
          ReadyState.isOpen]
      · cases hst : gci.state with
        | OPEN => exact absurd hst hgs
        | CLOSING =>
          simp [stepA, hc1, hnd, hh, handleClose, hctxh, hheap, hg', hst, notifyIfOpen,
            connIsOpen, sendTo, getA_updA_self, getA_updA_ne _ _ _ _ hgne, hgci,
            ReadyState.isOpen]
        | CLOSED =>
          simp [stepA, hc1, hnd, hh, handleClose, hctxh, hheap, hg', hst, notifyIfOpen,
            connIsOpen, sendTo, getA_updA_self, getA_updA_ne _ _ _ _ hgne, hgci,
            ReadyState.isOpen]
    · cases hopp2 : room.guest with
      | none =>
        simp [stepA, hc1, hnd, hh, handleClose, hctxh, hheap, hopp2, hseat', notifyIfOpen,
          updateRoomTimeout, clearRoomTimeout, roomOfId, hreg, openCount, seatOnline,
          connIsOpen, ReadyState.isOpen, getA_setA_self, getA_updA_self,
          sendTo, timeoutForCount]
      | some g =>
        have hgne : g.ws ≠ c := hoppne g (by simpa [hctxh] using hopp2)
        rcases hgval : getA s.conns g.ws with _ | gci0
        · simp [stepA, hc1, hnd, hh, handleClose, hctxh, hheap, hopp2, hseat', notifyIfOpen,
            updateRoomTimeout, clearRoomTimeout, roomOfId, hreg, openCount, seatOnline,
            connIsOpen, ReadyState.isOpen, getA_setA_self, getA_updA_self,
            getA_updA_ne _ _ _ _ hgne, hgval, sendTo, timeoutForCount]
        · cases hst : gci0.state <;>
            simp [stepA, hc1, hnd, hh, handleClose, hctxh, hheap, hopp2, hseat', notifyIfOpen,
              updateRoomTimeout, clearRoomTimeout, roomOfId, hreg, openCount, seatOnline,
              connIsOpen, ReadyState.isOpen, getA_setA_self, getA_updA_self,
              getA_updA_ne _ _ _ _ hgne, hgval, hst, sendTo, timeoutForCount]
    · cases hopp2 : room.guest with
      | none =>
        simp [stepA, hc1, hnd, hh, handleClose, hctxh, hheap, hopp2, hseat', notifyIfOpen,
          openCount, seatOnline, connIsOpen, ReadyState.isOpen, getA_setA_self,
          getA_updA_self, hc, hopen, sendTo, updateRoomTimeout, clearRoomTimeout, roomOfId,
          hreg]
      | some g =>
        have hgne : g.ws ≠ c := hoppne g (by simpa [hctxh] using hopp2)
        rcases hgval : getA s.conns g.ws with _ | gci0
        · simp [stepA, hc1, hnd, hh, handleClose, hctxh, hheap, hopp2, hseat', notifyIfOpen,
            openCount, seatOnline, connIsOpen, ReadyState.isOpen, getA_setA_self,
            getA_updA_self, getA_updA_ne _ _ _ _ hgne, hgval, hc, hopen, sendTo,
            updateRoomTimeout, clearRoomTimeout, roomOfId, hreg]
        · cases hst : gci0.state <;>
            simp [stepA, hc1, hnd, hh, handleClose, hctxh, hheap, hopp2, hseat', notifyIfOpen,
              openCount, seatOnline, connIsOpen, ReadyState.isOpen, getA_setA_self,
              getA_updA_self, getA_updA_ne _ _ _ _ hgne, hgval, hst, hc, hopen, sendTo,
              updateRoomTimeout, clearRoomTimeout, roomOfId, hreg]
  | false =>
    have hseat' : room.guest = some ⟨c, pid⟩ := by simpa [hctxh] using hseat
    refine ⟨?_, ?_, ?_, ?_⟩
    · simp [stepA, hc1, hnd, hh, handleClose, hctxh, hheap, getA_setA_self]
    · intro g gci hg hgci
      have hg' : room.host = some g := by simpa [hctxh] using hg
      have hgne : g.ws ≠ c := hoppne g (by rw [hctxh]; simpa using hg)
      by_cases hgs : gci.state = ReadyState.OPEN
      · simp [stepA, hc1, hnd, hh, handleClose, hctxh, hheap, hg', hgs, notifyIfOpen,
          connIsOpen, sendTo, getA_updA_self, getA_updA_ne _ _ _ _ hgne, hgci,
          ReadyState.isOpen]
      · cases hst : gci.state with
        | OPEN => exact absurd hst hgs
        | CLOSING =>
          simp [stepA, hc1, hnd, hh, handleClose, hctxh, hheap, hg', hst, notifyIfOpen,
            connIsOpen, sendTo, getA_updA_self, getA_updA_ne _ _ _ _ hgne, hgci,
            ReadyState.isOpen]
        | CLOSED =>
          simp [stepA, hc1, hnd, hh, handleClose, hctxh, hheap, hg', hst, notifyIfOpen,
            connIsOpen, sendTo, getA_updA_self, getA_updA_ne _ _ _ _ hgne, hgci,
            ReadyState.isOpen]
    · cases hopp2 : room.host with
      | none =>
        simp [stepA, hc1, hnd, hh, handleClose, hctxh, hheap, hopp2, hseat', notifyIfOpen,
          updateRoomTimeout, clearRoomTimeout, roomOfId, hreg, openCount, seatOnline,
          connIsOpen, ReadyState.isOpen, getA_setA_self, getA_updA_self,
          sendTo, timeoutForCount]
      | some g =>
        have hgne : g.ws ≠ c := hoppne g (by simpa [hctxh] using hopp2)
        rcases hgval : getA s.conns g.ws with _ | gci0
        · simp [stepA, hc1, hnd, hh, handleClose, hctxh, hheap, hopp2, hseat', notifyIfOpen,
            updateRoomTimeout, clearRoomTimeout, roomOfId, hreg, openCount, seatOnline,
            connIsOpen, ReadyState.isOpen, getA_setA_self, getA_updA_self,
            getA_updA_ne _ _ _ _ hgne, hgval, sendTo, timeoutForCount]
        · cases hst : gci0.state <;>
            simp [stepA, hc1, hnd, hh, handleClose, hctxh, hheap, hopp2, hseat', notifyIfOpen,
              updateRoomTimeout, clearRoomTimeout, roomOfId, hreg, openCount, seatOnline,
              connIsOpen, ReadyState.isOpen, getA_setA_self, getA_updA_self,
              getA_updA_ne _ _ _ _ hgne, hgval, hst, sendTo, timeoutForCount]
    · cases hopp2 : room.host with
      | none =>
        simp [stepA, hc1, hnd, hh, handleClose, hctxh, hheap, hopp2, hseat', notifyIfOpen,
          openCount, seatOnline, connIsOpen, ReadyState.isOpen, getA_setA_self,
          getA_updA_self, hc, hopen, sendTo, updateRoomTimeout, clearRoomTimeout, roomOfId,
          hreg]
      | some g =>
        have hgne : g.ws ≠ c := hoppne g (by simpa [hctxh] using hopp2)
        rcases hgval : getA s.conns g.ws with _ | gci0
        · simp [stepA, hc1, hnd, hh, handleClose, hctxh, hheap, hopp2, hseat', notifyIfOpen,
            openCount, seatOnline, connIsOpen, ReadyState.isOpen, getA_setA_self,
            getA_updA_self, getA_updA_ne _ _ _ _ hgne, hgval, hc, hopen, sendTo,
            updateRoomTimeout, clearRoomTimeout, roomOfId, hreg]
        · cases hst : gci0.state <;>
            simp [stepA, hc1, hnd, hh, handleClose, hctxh, hheap, hopp2, hseat', notifyIfOpen,
              openCount, seatOnline, connIsOpen, ReadyState.isOpen, getA_setA_self,
              getA_updA_self, getA_updA_ne _ _ _ _ hgne, hgval, hst, hc, hopen, sendTo,
              updateRoomTimeout, clearRoomTimeout, roomOfId, hreg]

@[simp] theorem sendToB_connections (s : VariantB.BState) (c : ConnId) (m : OutMsg) :
    (VariantB.sendToB s c m).connections = s.connections := rfl

@[simp] theorem sendToB_rooms (s : VariantB.BState) (c : ConnId) (m : OutMsg) :
    (VariantB.sendToB s c m).rooms = s.rooms := rfl

@[simp] theorem sendToB_pendingCleanups (s : VariantB.BState) (c : ConnId) (m : OutMsg) :
    (VariantB.sendToB s c m).pendingCleanups = s.pendingCleanups := rfl

@[simp] theorem notifyIfOpenB_connections (s : VariantB.BState) (seat : Option Seat)
    (m : OutMsg) :
    (VariantB.notifyIfOpenB s seat m).connections = s.connections := by
  cases seat with
  | none => rfl
  | some st => by_cases h : VariantB.connIsOpenB s st.ws <;> simp [VariantB.notifyIfOpenB, h]

@[simp] theorem notifyIfOpenB_pendingCleanups (s : VariantB.BState) (seat : Option Seat)
    (m : OutMsg) :
    (VariantB.notifyIfOpenB s seat m).pendingCleanups = s.pendingCleanups := by
  cases seat with
  | none => rfl
  | some st => by_cases h : VariantB.connIsOpenB s st.ws <;> simp [VariantB.notifyIfOpenB, h]

@[simp] theorem scheduleCleanupIfEmpty_connections (s : VariantB.BState)
    (room : VariantB.BRoom) (rid : String) :
    (VariantB.scheduleCleanupIfEmpty s room rid).connections = s.connections := by
  by_cases h : (room.host.isNone && room.guest.isNone) = true <;>
    simp [VariantB.scheduleCleanupIfEmpty, h]

/-- Variant B disconnect (the close handler on the captured room object): the
seat is cleared and the opposite seat kept, `lastActivity` is refreshed, the
opposite seat receives exactly one `host-disconnected`/`guest-disconnected`
frame iff it is occupied and open, the `connections` entry is removed, the
8-minute empty-room deletion is scheduled when the room became empty, and
the occupied-seat count decreases by one. -/
theorem discB_spec (s : VariantB.BState) (room : VariantB.BRoom) (c : ConnId)
    (connectionId roomId pid : String) (isHost : Bool) (now : Nat)
    (hseat : (if isHost then room.host else room.guest) = some ⟨c, pid⟩) :
    (if isHost then
      (VariantB.handleClose s room connectionId roomId isHost now).2.host = none ∧
      (VariantB.handleClose s room connectionId roomId isHost now).2.guest = room.guest
     else
      (VariantB.handleClose s room connectionId roomId isHost now).2.guest = none ∧
      (VariantB.handleClose s room connectionId roomId isHost now).2.host = room.host) ∧
    (VariantB.handleClose s room connectionId roomId isHost now).2.lastActivity = now ∧
    (∀ (g : Seat) (gci : VariantB.BConn),
      (if isHost then room.guest else room.host) = some g →
      getA s.conns g.ws = some gci →
      getA (VariantB.handleClose s room connectionId roomId isHost now).1.conns g.ws =
        some (if gci.state = ReadyState.OPEN
          then { gci with sent := gci.sent ++
            [if isHost then OutMsg.hostDisconnected else OutMsg.guestDisconnected] }
          else gci)) ∧
    (VariantB.handleClose s room connectionId roomId isHost now).1.connections =
      delA s.connections connectionId ∧
    ((if isHost then room.guest else room.host) = none →
      (VariantB.handleClose s room connectionId roomId isHost now).1.pendingCleanups =
        s.pendingCleanups ++ [roomId]) ∧
    (if room.host.isSome then 1 else 0) + (if room.guest.isSome then 1 else 0) =
      ((if (VariantB.handleClose s room connectionId roomId isHost now).2.host.isSome
         then 1 else 0) +
       (if (VariantB.handleClose s room connectionId roomId isHost now).2.guest.isSome
         then 1 else 0)) + 1 := by
  cases isHost with
  | true =>
    have hseat' : room.host = some ⟨c, pid⟩ := by simpa using hseat
    refine ⟨⟨?_, ?_⟩, ?_, ?_, ?_, ?_, ?_⟩
    · simp [VariantB.handleClose]
    · simp [VariantB.handleClose]
    · simp [VariantB.handleClose]
    · intro g gci hg hgci
      have hg' : room.guest = some g := by simpa using hg
      cases hst : gci.state <;>
        simp [VariantB.handleClose, hg', VariantB.notifyIfOpenB, VariantB.connIsOpenB,
          VariantB.sendToB, hgci, hst, ReadyState.isOpen, getA_updA_self]
    · simp [VariantB.handleClose]
    · intro hopp
      have hopp' : room.guest = none := by simpa using hopp
      simp [VariantB.handleClose, hopp', VariantB.scheduleCleanupIfEmpty]
    · simp [VariantB.handleClose, hseat']
      omega
  | false =>
    have hseat' : room.guest = some ⟨c, pid⟩ := by simpa using hseat
    refine ⟨⟨?_, ?_⟩, ?_, ?_, ?_, ?_, ?_⟩
    · simp [VariantB.handleClose]
    · simp [VariantB.handleClose]
    · simp [VariantB.handleClose]
    · intro g gci hg hgci
      have hg' : room.host = some g := by simpa using hg
      cases hst : gci.state <;>
        simp [VariantB.handleClose, hg', VariantB.notifyIfOpenB, VariantB.connIsOpenB,
          VariantB.sendToB, hgci, hst, ReadyState.isOpen, getA_updA_self]
    · simp [VariantB.handleClose]
    · intro hopp
      have hopp' : room.host = none := by simpa using hopp
      simp [VariantB.handleClose, hopp', VariantB.scheduleCleanupIfEmpty]
    · simp [VariantB.handleClose, hseat']

/-- C5: disconnecting a seated open connection (transport close, then the
close event) clears that connection's seat, sends exactly one disconnect
notification to the opposite seat iff that seat is occupied by an open
connection, and notifies the timeout subsystem: in variant A the room's
timer is re-armed from the post-disconnect occupancy and the open-seat count
decreases by one; in variant B `lastActivity` is refreshed, the `connections`
entry removed, the empty-room cleanup scheduled when the room became empty,
and the occupied-seat count decreases by one. -/
theorem C5_disconnect_transition :
    (∀ (s s2 : ServerState) (c : ConnId) (ci : ConnInfo) (ctx : HandlerCtx)
      (room : Room) (pid : String),
      getA s.conns c = some ci →
      ci.state = ReadyState.OPEN →
      ci.closeDispatched = false →
      ci.handler = some ctx →
      getA s.rooms ctx.roomId = some ctx.roomRef →
      getA s.heap ctx.roomRef = some room →
      (if ctx.isHost then room.host else room.guest) = some ⟨c, pid⟩ →
      (∀ g : Seat, (if ctx.isHost then room.guest else room.host) = some g → g.ws ≠ c) →
      s2 = stepA (stepA s (Event.transportClose c)) (Event.dispatchClose c) →
      getA s2.heap ctx.roomRef =
        some (if ctx.isHost then { room with host := none } else { room with guest := none }) ∧
      (∀ (g : Seat) (gci : ConnInfo),
        (if ctx.isHost then room.guest else room.host) = some g →
        getA s.conns g.ws = some gci →
        getA s2.conns g.ws =
          some (if gci.state = ReadyState.OPEN
            then { gci with sent := gci.sent ++ [OutMsg.opponentDisconnected] }
            else gci)) ∧
      getA s2.roomTimeouts ctx.roomId =
        some (timeoutForCount (openCount s2
          (if ctx.isHost then { room with host := none } else { room with guest := none }))) ∧
      openCount s room =
        openCount s2 (if ctx.isHost then { room with host := none }
          else { room with guest := none }) + 1) ∧
    (∀ (s : VariantB.BState) (room : VariantB.BRoom) (c : ConnId)
      (connectionId roomId pid : String) (isHost : Bool) (now : Nat),
      (if isHost then room.host else room.guest) = some ⟨c, pid⟩ →
      (if isHost then
        (VariantB.handleClose s room connectionId roomId isHost now).2.host = none ∧
        (VariantB.handleClose s room connectionId roomId isHost now).2.guest = room.guest
       else
        (VariantB.handleClose s room connectionId roomId isHost now).2.guest = none ∧
        (VariantB.handleClose s room connectionId roomId isHost now).2.host = room.host) ∧
      (VariantB.handleClose s room connectionId roomId isHost now).2.lastActivity = now ∧
      (∀ (g : Seat) (gci : VariantB.BConn),
        (if isHost then room.guest else room.host) = some g →
        getA s.conns g.ws = some gci →
        getA (VariantB.handleClose s room connectionId roomId isHost now).1.conns g.ws =
          some (if gci.state = ReadyState.OPEN
            then { gci with sent := gci.sent ++
              [if isHost then OutMsg.hostDisconnected else OutMsg.guestDisconnected] }
            else gci)) ∧
      (VariantB.handleClose s room connectionId roomId isHost now).1.connections =
        delA s.connections connectionId ∧
      ((if isHost then room.guest else room.host) = none →
        (VariantB.handleClose s room connectionId roomId isHost now).1.pendingCleanups =
          s.pendingCleanups ++ [roomId]) ∧
      (if room.host.isSome then 1 else 0) + (if room.guest.isSome then 1 else 0) =
        ((if (VariantB.handleClose s room connectionId roomId isHost now).2.host.isSome
           then 1 else 0) +
         (if (VariantB.handleClose s room connectionId roomId isHost now).2.guest.isSome
           then 1 else 0)) + 1) :=
  ⟨fun s s2 c ci ctx room pid hc hopen hnd hh hreg hheap hseat hoppne hs2 =>
    discA_spec s s2 c ci ctx room pid hc hopen hnd hh hreg hheap hseat hoppne hs2,
   fun s room c connectionId roomId pid isHost now hseat =>
    discB_spec s room c connectionId roomId pid isHost now hseat⟩

/-- C5 witness: in the concrete two-player room, the guest's disconnect
clears the guest seat, appends exactly one `opponent-disconnected` frame to
the host's outbox, re-arms the timer at the one-player duration, and drops
the open count from 2 to 1; in variant B the host's close empties the room,
stamps `lastActivity`, and schedules the empty-room cleanup. -/
theorem C5_disconnect_transition_witness :
    getA sGuestLeft.heap 0 = some ⟨some ⟨0, "H"⟩, none, 0⟩ ∧
    getA sGuestLeft.conns 0 = some ⟨ReadyState.OPEN,
      [OutMsg.connected "R" "H" true, OutMsg.playerJoined "G", OutMsg.opponentDisconnected],
      none, some ⟨"R", "H", true, 0, "R-H"⟩, false⟩ ∧
    getA sGuestLeft.roomTimeouts "R" = some 7200000 ∧
    openCount sBothJoined ⟨some ⟨0, "H"⟩, some ⟨1, "G"⟩, 0⟩ =
      openCount sGuestLeft ⟨some ⟨0, "H"⟩, none, 0⟩ + 1 ∧
    (VariantB.handleClose sBHostJoined ⟨some ⟨0, "H"⟩, none, 3, 3⟩ "R-H" "R" true 9).1.pendingCleanups =
      ["R"] ∧
    (VariantB.handleClose sBHostJoined ⟨some ⟨0, "H"⟩, none, 3, 3⟩ "R-H" "R" true 9).2.lastActivity =
      9 := by
  have hA := C5_disconnect_transition.1 sBothJoined sGuestLeft 1
    ⟨ReadyState.OPEN, [OutMsg.connected "R" "G" false], none,
      some ⟨"R", "G", false, 0, "R-G"⟩, false⟩
    ⟨"R", "G", false, 0, "R-G"⟩
    ⟨some ⟨0, "H"⟩, some ⟨1, "G"⟩, 0⟩
    "G" rfl rfl rfl rfl rfl rfl rfl
    (by intro g hg; cases Option.some.inj hg; decide) rfl
  have hB := C5_disconnect_transition.2 sBHostJoined ⟨some ⟨0, "H"⟩, none, 3, 3⟩ 0
    "R-H" "R" "H" true 9 rfl
  refine ⟨hA.1, ?_, hA.2.2.1, hA.2.2.2, hB.2.2.2.2.1 rfl, hB.2.1⟩
  exact hA.2.1 ⟨0, "H"⟩
    ⟨ReadyState.OPEN, [OutMsg.connected "R" "H" true, OutMsg.playerJoined "G"], none,
      some ⟨"R", "H", true, 0, "R-H"⟩, false⟩ rfl rfl

/-! ## Join helpers (used by C2 and C3) -/

/-- Variant A: a host joining a nonexistent room creates it, takes the host
seat, gets the `connected` acknowledgement with listeners registered, stays
open, and the room's timer is armed at the one-open-seat tier. -/
theorem joinA_create_spec (s s' : ServerState) (c : ConnId) (rid pid : String)
    (hfresh : getA s.conns c = none)
    (hrid : strFalsy (some rid) = false)
    (hpid : strFalsy (some pid) = false)
    (habs : getA s.rooms rid = none)
    (hs' : s' = stepA s (Event.connect c (some rid) (some pid) true)) :
    getA s'.rooms rid = some s.nextRef ∧
    getA s'.heap s.nextRef = some ⟨some ⟨c, pid⟩, none, s.time⟩ ∧
    getA s'.conns c = some ⟨ReadyState.OPEN, [OutMsg.connected rid pid true], none,
      some ⟨rid, pid, true, s.nextRef, rid ++ "-" ++ pid⟩, false⟩ ∧
    getA s'.roomTimeouts rid =
      some (timeoutForCount (openCount s' ⟨some ⟨c, pid⟩, none, s.time⟩)) := by
  subst hs'
  refine ⟨?_, ?_, ?_, ?_⟩ <;>
    simp [stepA, hfresh, handleConnect, hrid, hpid, habs, createRoom, afterRoomInit,
      finishJoin, updateRoomTimeout, clearRoomTimeout, roomOfId, sendTo, seatOnline,
      connIsOpen, ReadyState.isOpen, openCount, getA_setA_self, getA_updA_self]

theorem openCount_of_connIsOpen_eq (s s' : ServerState)
    (h : ∀ x, connIsOpen s x = connIsOpen s' x) (room : Room) :
    openCount s room = openCount s' room := by
  unfold openCount seatOnline
  cases room.host <;> cases room.guest <;> simp [h]

@[simp] theorem openCount_time_bump (s : ServerState) (room : Room) :
    openCount { s with time := s.time + 1 } room = openCount s room :=
  openCount_of_connIsOpen_eq _ _ (fun _ => rfl) room

@[simp] theorem finishJoin_rooms (s : ServerState) (c : ConnId) (rid pid : String)
    (ih : Bool) (ref : Nat) (key : String) :
    (finishJoin s c rid pid ih ref key).rooms = s.rooms := by
  simp [finishJoin, sendTo]

@[simp] theorem finishJoin_heap (s : ServerState) (c : ConnId) (rid pid : String)
    (ih : Bool) (ref : Nat) (key : String) :
    (finishJoin s c rid pid ih ref key).heap = s.heap := by
  simp [finishJoin, sendTo]

@[simp] theorem finishJoin_conn_self (s : ServerState) (c : ConnId) (rid pid : String)
    (ih : Bool) (ref : Nat) (key : String) :
    getA (finishJoin s c rid pid ih ref key).conns c =
      (getA s.conns c).map (fun ci =>
        { ci with handler := some ⟨rid, pid, ih, ref, key⟩,
                  sent := ci.sent ++ [OutMsg.connected rid pid ih] }) := by
  unfold finishJoin sendTo
  rw [show (∀ l (f : ConnInfo → ConnInfo), getA (updA l c f) c = (getA l c).map f) from
    fun l f => getA_updA_self l c f]
  rw [show (∀ l (f : ConnInfo → ConnInfo), getA (updA l c f) c = (getA l c).map f) from
    fun l f => getA_updA_self l c f]
  rw [updateRoomTimeout_conns]
  cases getA s.conns c <;> rfl

theorem connIsOpen_finishJoin (s : ServerState) (c : ConnId) (rid pid : String)
    (ih : Bool) (ref : Nat) (key : String) (x : ConnId) :
    connIsOpen (finishJoin s c rid pid ih ref key) x = connIsOpen s x := by
  unfold finishJoin
  rw [connIsOpen_sendTo]
  rw [connIsOpen_updA_statePreserving (updateRoomTimeout s rid) c x
    (fun ci => { ci with handler := some ⟨rid, pid, ih, ref, key⟩ }) (fun _ => rfl)]
  exact connIsOpen_of_conns_eq _ _ (updateRoomTimeout_conns s rid) x

/-- The timer `finishJoin` leaves armed for the room reflects the occupancy
of the final state (its last occupancy-relevant action is
`updateRoomTimeout`, and the later listener registration and `connected`
send do not change any `readyState`). -/
theorem finishJoin_timer (s : ServerState) (c : ConnId) (rid pid : String)
    (ih : Bool) (ref : Nat) (key : String) (room' : Room)
    (h1 : getA s.rooms rid = some ref) (h2 : getA s.heap ref = some room') :
    getA (finishJoin s c rid pid ih ref key).roomTimeouts rid =
      some (timeoutForCount (openCount (finishJoin s c rid pid ih ref key) room')) := by
  have ht := updateRoomTimeout_timer s rid ref room' h1 h2
  have hrt : (finishJoin s c rid pid ih ref key).roomTimeouts =
      (updateRoomTimeout s rid).roomTimeouts := rfl
  rw [hrt, ht,
    openCount_of_connIsOpen_eq (finishJoin s c rid pid ih ref key) s
      (fun x => connIsOpen_finishJoin s c rid pid ih ref key x) room']

/-- Variant A: a join into an existing room whose target seat is empty, or
held by a different connection that is not open, succeeds: the seat is
occupied by the incoming connection, the `connected` acknowledgement is
sent with listeners registered, the socket stays open, and the room's timer
is re-armed from the post-join occupancy. -/
theorem joinA_seat_spec (s s' : ServerState) (c : ConnId) (ref : Nat) (room : Room)
    (rid pid : String) (isHost : Bool)
    (hfresh : getA s.conns c = none)
    (hrid : strFalsy (some rid) = false)
    (hpid : strFalsy (some pid) = false)
    (hreg : getA s.rooms rid = some ref)
    (hheap : getA s.heap ref = some room)
    (hfree : ∀ t : Seat, (if isHost then room.host else room.guest) = some t →
      t.ws ≠ c ∧ connIsOpen s t.ws = false)
    (hoppne : ∀ g : Seat, (if isHost then room.guest else room.host) = some g → g.ws ≠ c)
    (hs' : s' = stepA s (Event.connect c (some rid) (some pid) isHost)) :
    getA s'.rooms rid = some ref ∧
    getA s'.heap ref =
      some (if isHost then { room with host := some ⟨c, pid⟩ }
        else { room with guest := some ⟨c, pid⟩ }) ∧
    getA s'.conns c = some ⟨ReadyState.OPEN, [OutMsg.connected rid pid isHost], none,
      some ⟨rid, pid, isHost, ref, rid ++ "-" ++ pid⟩, false⟩ ∧
    getA s'.roomTimeouts rid =
      some (timeoutForCount (openCount s'
        (if isHost then { room with host := some ⟨c, pid⟩ }
          else { room with guest := some ⟨c, pid⟩ }))) := by
  subst hs'
  cases isHost with
  | true =>
    have hcheck : ∀ (X : List (String × ConnId)),
        seatOnline { s with
          conns := setA s.conns c ⟨ReadyState.OPEN, [], none, none, false⟩,
          connections := X } room.host = false := by
      intro X
      cases hhs : room.host with
      | none => rfl
      | some t =>
        obtain ⟨hne, hoff⟩ := hfree t (by simpa using hhs)
        simp only [seatOnline, connIsOpen]
        rw [getA_setA_ne _ _ _ _ hne]
        simpa [connIsOpen] using hoff
    refine ⟨?_, ?_, ?_, ?_⟩
    · simp [stepA, hfresh, handleConnect, hrid, hpid, hreg, hheap, afterRoomInit, hcheck]
    · simp [stepA, hfresh, handleConnect, hrid, hpid, hreg, hheap, afterRoomInit, hcheck,
        getA_setA_self]
    · simp [stepA, hfresh, handleConnect, hrid, hpid, hreg, hheap, afterRoomInit, hcheck,
        getA_setA_self]
    · simp only [stepA, hfresh, Option.isNone_none, if_true, ite_true, handleConnect, hrid,
        hpid, Bool.or_self, Bool.false_eq_true, if_false, Option.getD_some, hreg,
        Option.isSome_some, afterRoomInit, hheap, hcheck]
      simp only [openCount_time_bump]
      exact finishJoin_timer _ c rid pid true ref _ _ (by simp [hreg])
        (by simp [getA_setA_self])
  | false =>
    have hcheck : ∀ (X : List (String × ConnId)),
        seatOnline { s with
          conns := setA s.conns c ⟨ReadyState.OPEN, [], none, none, false⟩,
          connections := X } room.guest = false := by
      intro X
      cases hhs : room.guest with
      | none => rfl
      | some t =>
        obtain ⟨hne, hoff⟩ := hfree t (by simpa using hhs)
        simp only [seatOnline, connIsOpen]
        rw [getA_setA_ne _ _ _ _ hne]
        simpa [connIsOpen] using hoff
    have hoppC : ∀ g : Seat, room.host = some g → g.ws ≠ c := by
      intro g hg
      exact hoppne g (by simpa using hg)
    refine ⟨?_, ?_, ?_, ?_⟩
    · simp [stepA, hfresh, handleConnect, hrid, hpid, hreg, hheap, afterRoomInit, hcheck]
    · simp [stepA, hfresh, handleConnect, hrid, hpid, hreg, hheap, afterRoomInit, hcheck,
        getA_setA_self]
    · simp [stepA, hfresh, handleConnect, hrid, hpid, hreg, hheap, afterRoomInit, hcheck,
        notifyIfOpen_conns_ne _ _ _ _ hoppC, getA_setA_self]
    · simp only [stepA, hfresh, Option.isNone_none, if_true, ite_true, handleConnect, hrid,
        hpid, Bool.or_self, Bool.false_eq_true, if_false, Option.getD_some, hreg,
        Option.isSome_some, afterRoomInit, hheap, hcheck]
      simp only [openCount_time_bump]
      exact finishJoin_timer _ c rid pid false ref _ _ (by simp [hreg])
        (by simp [getA_setA_self])

/-! ## C3: the occupancy-keyed timeout schedule -/

/-- C3: `updateRoomTimeout` cancels the room's pending timer and arms
exactly one new timer whose duration is the three-tier table applied to the
open-seat count (leaving other rooms' timers alone); the tier table is
monotone nondecreasing in the occupant count; and every occupancy-changing
event re-arms the timer before returning, so that after a successful join
(room-creating or into an existing room) and after a disconnect the pending
duration always equals the table at the current occupancy. -/
theorem C3_timeout_schedule :
    (∀ (s : ServerState) (rid : String) (ref : Nat) (room : Room),
      getA s.rooms rid = some ref →
      getA s.heap ref = some room →
      getA (updateRoomTimeout s rid).roomTimeouts rid =
        some (timeoutForCount (openCount s room)) ∧
      countKey (updateRoomTimeout s rid).roomTimeouts rid = 1 ∧
      (∀ rid', rid' ≠ rid →
        getA (updateRoomTimeout s rid).roomTimeouts rid' = getA s.roomTimeouts rid')) ∧
    (∀ a b : Nat, a ≤ b → timeoutForCount a ≤ timeoutForCount b) ∧
    (∀ (s s' : ServerState) (c : ConnId) (rid pid : String),
      getA s.conns c = none →
      strFalsy (some rid) = false →
      strFalsy (some pid) = false →
      getA s.rooms rid = none →
      s' = stepA s (Event.connect c (some rid) (some pid) true) →
      getA s'.roomTimeouts rid =
        some (timeoutForCount (openCount s' ⟨some ⟨c, pid⟩, none, s.time⟩))) ∧
    (∀ (s s' : ServerState) (c : ConnId) (ref : Nat) (room : Room) (rid pid : String)
      (isHost : Bool),
      getA s.conns c = none →
      strFalsy (some rid) = false →
      strFalsy (some pid) = false →
      getA s.rooms rid = some ref →
      getA s.heap ref = some room →
      (∀ t : Seat, (if isHost then room.host else room.guest) = some t →
        t.ws ≠ c ∧ connIsOpen s t.ws = false) →
      (∀ g : Seat, (if isHost then room.guest else room.host) = some g → g.ws ≠ c) →
      s' = stepA s (Event.connect c (some rid) (some pid) isHost) →
      getA s'.roomTimeouts rid =
        some (timeoutForCount (openCount s'
          (if isHost then { room with host := some ⟨c, pid⟩ }
            else { room with guest := some ⟨c, pid⟩ })))) ∧
    (∀ (s s2 : ServerState) (c : ConnId) (ci : ConnInfo) (ctx : HandlerCtx)
      (room : Room) (pid : String),
      getA s.conns c = some ci →
      ci.state = ReadyState.OPEN →
      ci.closeDispatched = false →
      ci.handler = some ctx →
      getA s.rooms ctx.roomId = some ctx.roomRef →
      getA s.heap ctx.roomRef = some room →
      (if ctx.isHost then room.host else room.guest) = some ⟨c, pid⟩ →
      (∀ g : Seat, (if ctx.isHost then room.guest else room.host) = some g → g.ws ≠ c) →
      s2 = stepA (stepA s (Event.transportClose c)) (Event.dispatchClose c) →
      getA s2.roomTimeouts ctx.roomId =
        some (timeoutForCount (openCount s2
          (if ctx.isHost then { room with host := none }
            else { room with guest := none })))) := by
  refine ⟨?_, ?_, ?_, ?_, ?_⟩
  · intro s rid ref room hreg hheap
    have hro : roomOfId (clearRoomTimeout s rid) rid = some room := by
      simp [roomOfId, clearRoomTimeout, hreg, hheap]
    refine ⟨updateRoomTimeout_timer s rid ref room hreg hheap, ?_, ?_⟩
    · simp only [updateRoomTimeout, hro]
      exact countKey_setA_absent _ _ _ (getA_delA_self _ _)
    · intro rid' hne
      simp only [updateRoomTimeout, hro]
      rw [getA_setA_ne _ _ _ _ hne]
      exact getA_delA_ne _ _ _ hne
  · intro a b hab
    by_cases hb0 : b = 0
    · have ha0 : a = 0 := by omega
      rw [ha0, hb0]
    · by_cases hb1 : b = 1
      · have ha01 : a = 0 ∨ a = 1 := by omega
        rcases ha01 with ha | ha <;> rw [ha, hb1] <;> decide
      · have htb : timeoutForCount b = TIMEOUTS_TWO_PLAYERS := by
          simp [timeoutForCount, hb0, hb1]
        rw [htb]
        by_cases ha0 : a = 0
        · rw [ha0]; decide
        · by_cases ha1 : a = 1
          · rw [ha1]; decide
          · simp [timeoutForCount, ha0, ha1]
  · intro s s' c rid pid hfresh hrid hpid habs hs'
    exact (joinA_create_spec s s' c rid pid hfresh hrid hpid habs hs').2.2.2
  · intro s s' c ref room rid pid isHost hfresh hrid hpid hreg hheap hfree hoppne hs'
    exact (joinA_seat_spec s s' c ref room rid pid isHost hfresh hrid hpid hreg hheap
      hfree hoppne hs').2.2.2
  · intro s s2 c ci ctx room pid hc hopen hnd hh hreg hheap hseat hoppne hs2
    exact (discA_spec s s2 c ci ctx room pid hc hopen hnd hh hreg hheap hseat hoppne
      hs2).2.2.1

/-- C3 witness: concrete instances of all five conjuncts: re-arming the
one-player room keeps exactly one timer entry at the one-player tier and
leaves room `X` alone; tier monotone at 0 and 2; creating join, guest join
and guest disconnect leave the 1-, 2- and again 1-player durations. -/
theorem C3_timeout_schedule_witness :
    getA (updateRoomTimeout sHostJoined "R").roomTimeouts "R" = some 7200000 ∧
    countKey (updateRoomTimeout sHostJoined "R").roomTimeouts "R" = 1 ∧
    timeoutForCount 0 ≤ timeoutForCount 2 ∧
    getA (stepA initState (Event.connect 0 (some "R") (some "H") true)).roomTimeouts "R" =
      some 7200000 ∧
    getA (stepA sHostJoined (Event.connect 1 (some "R") (some "G") false)).roomTimeouts "R" =
      some 18000000 ∧
    getA sGuestLeft.roomTimeouts "R" = some 7200000 := by
  have hA := C3_timeout_schedule.1 sHostJoined "R" 0 ⟨some ⟨0, "H"⟩, none, 0⟩ rfl rfl
  have hB := C3_timeout_schedule.2.1 0 2 (by decide)
  have hC := C3_timeout_schedule.2.2.1 initState _ 0 "R" "H" rfl rfl rfl rfl rfl
  have hD := C3_timeout_schedule.2.2.2.1 sHostJoined _ 1 0 ⟨some ⟨0, "H"⟩, none, 0⟩
    "R" "G" false rfl rfl rfl rfl rfl
    (by intro t ht; exact Option.noConfusion ht)
    (by intro g hg; cases Option.some.inj hg; decide) rfl
  have hE := C3_timeout_schedule.2.2.2.2 sBothJoined sGuestLeft 1
    ⟨ReadyState.OPEN, [OutMsg.connected "R" "G" false], none,
      some ⟨"R", "G", false, 0, "R-G"⟩, false⟩
    ⟨"R", "G", false, 0, "R-G"⟩
    ⟨some ⟨0, "H"⟩, some ⟨1, "G"⟩, 0⟩
    "G" rfl rfl rfl rfl rfl rfl rfl
    (by intro g hg; cases Option.some.inj hg; decide) rfl
  exact ⟨hA.1, hA.2.1, hB, hC, hD, hE⟩

/-! ## C2: joins to a nonexistent room -/

/-- C2 counterexample: in `src/unnamed/part_000` a guest joining the absent
room `R` from the empty state creates the room (the registry maps `R`
afterwards), contradicting "the join is rejected ... and no room is
created". -/
theorem C2_counterexample : ¬ ClaimC2Stated := by
  intro h
  have := h.2 VariantB.initB 0 "R" "G" 0 rfl rfl rfl rfl
  exact absurd this (by decide)

/-- C2 amended: in `src/server.js` the claim holds as stated — a host join
to an absent room creates the room under that id (seats initially empty,
then the host seat is occupied by the joiner) and succeeds with the
`connected` acknowledgement on an open socket, while a guest join to the
same absent id is answered with the `Room not found` error, closed with
1008, and creates no room.  In `src/unnamed/part_000` any join to an absent
room creates the room: a guest join succeeds, seats the guest and receives
the `connected` acknowledgement. -/
theorem C2_room_creation :
    (∀ (s s' : ServerState) (c : ConnId) (rid pid : String),
      getA s.conns c = none →
      strFalsy (some rid) = false →
      strFalsy (some pid) = false →
      getA s.rooms rid = none →
      s' = stepA s (Event.connect c (some rid) (some pid) true) →
      getA s'.rooms rid = some s.nextRef ∧
      getA s'.heap s.nextRef = some ⟨some ⟨c, pid⟩, none, s.time⟩ ∧
      getA s'.conns c = some ⟨ReadyState.OPEN, [OutMsg.connected rid pid true], none,
        some ⟨rid, pid, true, s.nextRef, rid ++ "-" ++ pid⟩, false⟩) ∧
    (∀ (s s' : ServerState) (c : ConnId) (rid pid : String),
      getA s.conns c = none →
      strFalsy (some rid) = false →
      strFalsy (some pid) = false →
      getA s.rooms rid = none →
      s' = stepA s (Event.connect c (some rid) (some pid) false) →
      getA s'.rooms rid = none ∧
      getA s'.conns c = some ⟨ReadyState.CLOSING, [OutMsg.errorMsg "Room not found"],
        some (1008, "Room not found"), none, false⟩) ∧
    (∀ (s : VariantB.BState) (c : ConnId) (rid pid : String) (now : Nat),
      getA s.conns c = none →
      strFalsy (some rid) = false →
      strFalsy (some pid) = false →
      getA s.rooms rid = none →
      getA (VariantB.handleConnect s c (some rid) (some pid) false now).rooms rid =
        some ⟨none, some ⟨c, pid⟩, now, now⟩ ∧
      getA (VariantB.handleConnect s c (some rid) (some pid) false now).conns c =
        some ⟨ReadyState.OPEN, [OutMsg.connected rid pid false], none, true⟩) := by
  refine ⟨?_, ?_, ?_⟩
  · intro s s' c rid pid hfresh hrid hpid habs hs'
    obtain ⟨h1, h2, h3, _⟩ := joinA_create_spec s s' c rid pid hfresh hrid hpid habs hs'
    exact ⟨h1, h2, h3⟩
  · intro s s' c rid pid hfresh hrid hpid habs hs'
    subst hs'
    constructor
    · simp [stepA, hfresh, handleConnect, hrid, hpid, habs]
    · simp [stepA, hfresh, handleConnect, hrid, hpid, habs, sendTo, closeWs,
        getA_updA_self, getA_setA_self]
  · intro s c rid pid now hfresh hrid hpid habs
    constructor
    · simp [VariantB.handleConnect, hrid, hpid, habs, getA_setA_self,
        VariantB.seatOnlineB, VariantB.connIsOpenB, VariantB.notifyIfOpenB,
        VariantB.finishJoinB, VariantB.sendToB, getA_updA_self]
    · simp [VariantB.handleConnect, hrid, hpid, habs, getA_setA_self,
        VariantB.seatOnlineB, VariantB.connIsOpenB, VariantB.notifyIfOpenB,
        VariantB.finishJoinB, VariantB.sendToB, getA_updA_self]

/-- C2 witness: from the empty states, host `H` creates room `R` in variant
A, guest `G` is rejected with `Room not found` in variant A, and guest `G`
creates room `R` in variant B. -/
theorem C2_room_creation_witness :
    getA (stepA initState (Event.connect 0 (some "R") (some "H") true)).rooms "R" = some 0 ∧
    getA (stepA initState (Event.connect 0 (some "R") (some "G") false)).rooms "R" = none ∧
    getA (stepA initState (Event.connect 0 (some "R") (some "G") false)).conns 0 =
      some ⟨ReadyState.CLOSING, [OutMsg.errorMsg "Room not found"],
        some (1008, "Room not found"), none, false⟩ ∧
    getA (VariantB.handleConnect VariantB.initB 0 (some "R") (some "G") false 5).rooms "R" =
      some ⟨none, some ⟨0, "G"⟩, 5, 5⟩ := by
  have hA := C2_room_creation.1 initState _ 0 "R" "H" rfl rfl rfl rfl rfl
  have hB := C2_room_creation.2.1 initState _ 0 "R" "G" rfl rfl rfl rfl rfl
  have hC := C2_room_creation.2.2 VariantB.initB 0 "R" "G" 5 rfl rfl rfl rfl
  exact ⟨hA.1, hB.1, hB.2, hC.1⟩

/-! ## C1: the seat exclusivity invariant -/

/-- C1 counterexample: after host `H` joins room `R` and its transport
closes, but before its close event is dispatched, the reachable state keeps
connection 0 — no longer open — in the host seat of the registered room, so
"a seat is occupied only while its connection is open" fails. -/
theorem C1_counterexample : ¬ ClaimC1Stated := by
  intro h
  have hr := h
    (runA initState [Event.connect 0 (some "R") (some "H") true, Event.transportClose 0])
    ⟨[Event.connect 0 (some "R") (some "H") true, Event.transportClose 0], rfl⟩
    "R" ⟨some ⟨0, "H"⟩, none, 0⟩ rfl
  have := hr.1 ⟨0, "H"⟩ rfl
  exact absurd this (by decide)

/-- C1 amended: each seat of a registered room holds at most one connection
(hence at most one open connection occupies any seat at any instant), and
handling a connection's close event clears that connection's role seat in
the room captured at join; however, between a connection's transport
closing and the dispatch of its close event, the seat may still be occupied
by that no-longer-open connection. -/
theorem C1_seat_exclusivity_amended :
    (∀ (s : ServerState) (rid : String) (room : Room),
      roomOfId s rid = some room →
      (∀ st st' : Seat, room.host = some st → room.host = some st' → st = st') ∧
      (∀ st st' : Seat, room.guest = some st → room.guest = some st' → st = st')) ∧
    (∀ (s s' : ServerState) (c : ConnId) (ci : ConnInfo) (ctx : HandlerCtx) (room : Room),
      getA s.conns c = some ci →
      ci.state = ReadyState.CLOSED →
      ci.closeDispatched = false →
      ci.handler = some ctx →
      getA s.heap ctx.roomRef = some room →
      s' = stepA s (Event.dispatchClose c) →
      getA s'.heap ctx.roomRef =
        some (if ctx.isHost then { room with host := none }
          else { room with guest := none })) := by
  constructor
  · intro s rid room _
    constructor
    · intro st st' h h'
      rw [h] at h'
      exact Option.some.inj h'
    · intro st st' h h'
      rw [h] at h'
      exact Option.some.inj h'
  · intro s s' c ci ctx room hc hclosed hnd hh hheap hs'
    subst hs'
    cases hctxh : ctx.isHost with
    | true => simp [stepA, hc, hclosed, hnd, hh, handleClose, hctxh, hheap, getA_setA_self]
    | false => simp [stepA, hc, hclosed, hnd, hh, handleClose, hctxh, hheap, getA_setA_self]

/-- C1 amended witness: seat uniqueness in the concrete one-player room,
and dispatching the closed host's close event empties the host seat of the
concrete room. -/
theorem C1_seat_exclusivity_amended_witness :
    ((⟨some ⟨0, "H"⟩, none, 0⟩ : Room).host = some ⟨0, "H"⟩ →
      (⟨some ⟨0, "H"⟩, none, 0⟩ : Room).host = some ⟨0, "H"⟩ →
      (⟨0, "H"⟩ : Seat) = ⟨0, "H"⟩) ∧
    getA (stepA (runA initState
        [Event.connect 0 (some "R") (some "H") true, Event.transportClose 0])
        (Event.dispatchClose 0)).heap 0 = some ⟨none, none, 0⟩ := by
  constructor
  · exact (C1_seat_exclusivity_amended.1
      (runA initState [Event.connect 0 (some "R") (some "H") true]) "R"
      ⟨some ⟨0, "H"⟩, none, 0⟩ rfl).1 ⟨0, "H"⟩ ⟨0, "H"⟩
  · exact C1_seat_exclusivity_amended.2
      (runA initState [Event.connect 0 (some "R") (some "H") true, Event.transportClose 0])
      _ 0
      ⟨ReadyState.CLOSED, [OutMsg.connected "R" "H" true], none,
        some ⟨"R", "H", true, 0, "R-H"⟩, false⟩
      ⟨"R", "H", true, 0, "R-H"⟩
      ⟨some ⟨0, "H"⟩, none, 0⟩
      rfl rfl rfl rfl rfl rfl
